import Mathlib

set_option maxHeartbeats 1000000

/-!
Verification of the particle-ensemble core of `xpart`
(`src/xpart/particles/particles.py`) against its specification.

The per-particle arrays of the ensemble are embedded as Lean lists:
`Float64` arrays as `List ℝ` (every IEEE double is a real number; the
kinematics claims are stated over exact real arithmetic), `Int64` arrays
as `List ℤ`, and the `UInt32` RNG words as `List ℕ` (values live below
`2 ^ 32`; the one place the code stores a negative constant into a
`UInt32` array is embedded with the wrapped value, see `uSent`).
The scalar reference fields `q0`/`mass0` are embedded as `List`-free `ℚ`
so that the merge routine's tolerance comparison stays decidable; the
comparison only ever involves finitely-representable float values.
-/

namespace Xpart

/-- Sentinel state marking a never-populated or fully removed slot
(`LAST_INVALID_STATE = -999999999` at module scope of `particles.py`). -/
def LAST_INVALID_STATE : ℤ := -999999999

/-- Value actually stored when `LAST_INVALID_STATE` is written into one of
the four `UInt32` RNG arrays: numpy wraps the negative constant modulo
`2 ^ 32`, giving `2 ^ 32 - 999999999`. -/
def uSent : ℕ := 3294967297

/-- Real-valued image of the sentinel, stored into the `Float64` arrays
(representable exactly in IEEE double). -/
def rSent : ℝ := -999999999

/-- Boolean-mask gather, mirroring numpy fancy indexing `vv[mask]`: keeps
the elements sitting at positions where the mask holds `true`. -/
def selectMask {α : Type} : List Bool → List α → List α
  | _, [] => []
  | [], _ => []
  | b :: ms, a :: as => if b then a :: selectMask ms as else selectMask ms as

/-- The particle ensemble: capacity, the two scalar reference fields, and
the 25 per-particle arrays of `per_particle_vars`, in source order. -/
@[ext]
structure Particles where
  capacity : ℕ
  q0 : ℚ
  mass0 : ℚ
  p0c : List ℝ
  gamma0 : List ℝ
  beta0 : List ℝ
  s : List ℝ
  x : List ℝ
  y : List ℝ
  px : List ℝ
  py : List ℝ
  zeta : List ℝ
  psigma : List ℝ
  delta : List ℝ
  rpp : List ℝ
  rvv : List ℝ
  chi : List ℝ
  charge_ratio : List ℝ
  weight : List ℝ
  particle_id : List ℤ
  at_element : List ℤ
  at_turn : List ℤ
  state : List ℤ
  parent_particle_id : List ℤ
  rng_s1 : List ℕ
  rng_s2 : List ℕ
  rng_s3 : List ℕ
  rng_s4 : List ℕ

/-- Wellformedness: every per-particle array has length `capacity`; this
is the layout guaranteed by the backing `xobjects` buffer. -/
def WF (p : Particles) : Prop :=
  p.p0c.length = p.capacity ∧ p.gamma0.length = p.capacity ∧
  p.beta0.length = p.capacity ∧ p.s.length = p.capacity ∧
  p.x.length = p.capacity ∧ p.y.length = p.capacity ∧
  p.px.length = p.capacity ∧ p.py.length = p.capacity ∧
  p.zeta.length = p.capacity ∧ p.psigma.length = p.capacity ∧
  p.delta.length = p.capacity ∧ p.rpp.length = p.capacity ∧
  p.rvv.length = p.capacity ∧ p.chi.length = p.capacity ∧
  p.charge_ratio.length = p.capacity ∧ p.weight.length = p.capacity ∧
  p.particle_id.length = p.capacity ∧ p.at_element.length = p.capacity ∧
  p.at_turn.length = p.capacity ∧ p.state.length = p.capacity ∧
  p.parent_particle_id.length = p.capacity ∧
  p.rng_s1.length = p.capacity ∧ p.rng_s2.length = p.capacity ∧
  p.rng_s3.length = p.capacity ∧ p.rng_s4.length = p.capacity

instance (p : Particles) : Decidable (WF p) := by
  unfold WF; infer_instance

/-- Liveness test of `reorganize`: `mask_active = state > 0`. -/
def aliveP (st : ℤ) : Bool := decide (0 < st)

/-- Lost-but-valid test of `reorganize`:
`mask_lost = (state < 1) & (state > LAST_INVALID_STATE)`. -/
def lostP (st : ℤ) : Bool := decide (st < 1) && decide (LAST_INVALID_STATE < st)

/-- A slot is non-sentinel when its state differs from the sentinel. -/
def validP (st : ℤ) : Bool := decide (st ≠ LAST_INVALID_STATE)

/-- In-place three-way partition of one per-particle array, mirroring the
body of the field loop of `reorganize`:
`vv[:n_active] = vv[mask_active]`, `vv[n_active:n_active+n_lost] = vv[mask_lost]`,
`vv[n_active+n_lost:] = LAST_INVALID_STATE`. -/
def reorgArr {α : Type} (maskA maskL : List Bool) (nA nL : ℕ) (sent : α)
    (cap : ℕ) (vv : List α) : List α :=
  selectMask maskA vv ++ selectMask maskL vv ++ List.replicate (cap - (nA + nL)) sent

/-- Embedding of `Particles.reorganize`: computes the alive and lost masks
from `state`, gathers each per-particle array into
active-prefix / lost-middle / sentinel-tail form, and returns the two
counts.  The transient lost-particles-are-hidden viewing flag is not
modelled: the method unhides before touching storage and restores the flag
afterwards, so it does not affect the array semantics embedded here. -/
def reorganize (p : Particles) : Particles × ℕ × ℕ :=
  let maskA := p.state.map aliveP
  let maskL := p.state.map lostP
  let nA := maskA.count true
  let nL := maskL.count true
  ({ capacity := p.capacity
     q0 := p.q0
     mass0 := p.mass0
     p0c := reorgArr maskA maskL nA nL rSent p.capacity p.p0c
     gamma0 := reorgArr maskA maskL nA nL rSent p.capacity p.gamma0
     beta0 := reorgArr maskA maskL nA nL rSent p.capacity p.beta0
     s := reorgArr maskA maskL nA nL rSent p.capacity p.s
     x := reorgArr maskA maskL nA nL rSent p.capacity p.x
     y := reorgArr maskA maskL nA nL rSent p.capacity p.y
     px := reorgArr maskA maskL nA nL rSent p.capacity p.px
     py := reorgArr maskA maskL nA nL rSent p.capacity p.py
     zeta := reorgArr maskA maskL nA nL rSent p.capacity p.zeta
     psigma := reorgArr maskA maskL nA nL rSent p.capacity p.psigma
     delta := reorgArr maskA maskL nA nL rSent p.capacity p.delta
     rpp := reorgArr maskA maskL nA nL rSent p.capacity p.rpp
     rvv := reorgArr maskA maskL nA nL rSent p.capacity p.rvv
     chi := reorgArr maskA maskL nA nL rSent p.capacity p.chi
     charge_ratio := reorgArr maskA maskL nA nL rSent p.capacity p.charge_ratio
     weight := reorgArr maskA maskL nA nL rSent p.capacity p.weight
     particle_id := reorgArr maskA maskL nA nL LAST_INVALID_STATE p.capacity p.particle_id
     at_element := reorgArr maskA maskL nA nL LAST_INVALID_STATE p.capacity p.at_element
     at_turn := reorgArr maskA maskL nA nL LAST_INVALID_STATE p.capacity p.at_turn
     state := reorgArr maskA maskL nA nL LAST_INVALID_STATE p.capacity p.state
     parent_particle_id :=
       reorgArr maskA maskL nA nL LAST_INVALID_STATE p.capacity p.parent_particle_id
     rng_s1 := reorgArr maskA maskL nA nL uSent p.capacity p.rng_s1
     rng_s2 := reorgArr maskA maskL nA nL uSent p.capacity p.rng_s2
     rng_s3 := reorgArr maskA maskL nA nL uSent p.capacity p.rng_s3
     rng_s4 := reorgArr maskA maskL nA nL uSent p.capacity p.rng_s4 }, nA, nL)

/-- Count of alive slots (`state > 0`) of the pre-call ensemble. -/
def nActive (p : Particles) : ℕ := p.state.countP aliveP

/-- Count of lost-but-valid slots of the pre-call ensemble. -/
def nLost (p : Particles) : ℕ := p.state.countP lostP

/-- Identifiers found in the non-sentinel slots, in slot order. -/
def validIds (p : Particles) : List ℤ :=
  selectMask (p.state.map validP) p.particle_id

/-- Helper building a concrete ensemble: given capacity, a state array and
a particle-id array, all remaining per-particle arrays are zero-filled. -/
def mkP (cap : ℕ) (st pid : List ℤ) : Particles :=
  { capacity := cap
    q0 := 0
    mass0 := 0
    p0c := List.replicate cap 0
    gamma0 := List.replicate cap 0
    beta0 := List.replicate cap 0
    s := List.replicate cap 0
    x := List.replicate cap 0
    y := List.replicate cap 0
    px := List.replicate cap 0
    py := List.replicate cap 0
    zeta := List.replicate cap 0
    psigma := List.replicate cap 0
    delta := List.replicate cap 0
    rpp := List.replicate cap 0
    rvv := List.replicate cap 0
    chi := List.replicate cap 0
    charge_ratio := List.replicate cap 0
    weight := List.replicate cap 0
    particle_id := pid
    at_element := List.replicate cap 0
    at_turn := List.replicate cap 0
    state := st
    parent_particle_id := List.replicate cap 0
    rng_s1 := List.replicate cap 0
    rng_s2 := List.replicate cap 0
    rng_s3 := List.replicate cap 0
    rng_s4 := List.replicate cap 0 }

/-- Concrete ensemble for the C4 witness. -/
def pW4 : Particles := mkP 3 [0, 1, LAST_INVALID_STATE] [5, 6, 7]

/-- Failure modes of `add_particles`.  The source raises
`NotImplementedError` both for `keep_lost=True` and for the
capacity-overflow case, `ValueError` for `np.max` over an empty slice, and
`AssertionError` for a scalar reference-field mismatch; the constructors
name the abstract conditions. -/
inductive MergeError
  | notImplemented
  | emptyMax
  | capacityExceeded
  | scalarMismatch
deriving DecidableEq

/-- Absolute value on the rationals (`np.abs`), written with an explicit
sign test so that it evaluates by kernel reduction. -/
def absQ (a : ℚ) : ℚ := if a < 0 then -a else a

/-- Tolerance comparison of `np.isclose(a, b, rtol=1e-14, atol=1e-14)`:
`|a - b| <= atol + rtol * |b|`. -/
def isclose14 (a b : ℚ) : Bool :=
  decide (absQ (a - b) ≤ 1 / 10 ^ 14 + (1 / 10 ^ 14) * absQ b)

/-- Slice assignment `vv[i:i+len(nv)] = nv`, for an in-bounds slice. -/
def setRange {α : Type} (vv : List α) (i : ℕ) (nv : List α) : List α :=
  vv.take i ++ nv ++ vv.drop (i + nv.length)

/-- Maximum of an integer list, `none` on the empty list: `np.max` raises
`ValueError` on a zero-size array. -/
def listMaxOpt : List ℤ → Option ℤ
  | [] => none
  | a :: as =>
    match listMaxOpt as with
    | none => some a
    | some m => some (max a m)

/-- The fresh identifier block `np.arange(max_id+1, max_id+1+n_copy)`. -/
def newIds (maxId : ℤ) (n : ℕ) : List ℤ :=
  (List.range n).map (fun (j : ℕ) => maxId + 1 + (j : ℤ))

/-- The per-particle-field copy loop of `add_particles`: writes the
mask-selected donor values into the receiver's free region starting at
`iStart` (this includes the donor `particle_id` values, which the caller
overwrites right afterwards with the fresh identifier block). -/
def copyFields (self1 part : Particles) (maskCopy : List Bool) (iStart : ℕ) :
    Particles :=
  { capacity := self1.capacity
    q0 := self1.q0
    mass0 := self1.mass0
    p0c := setRange self1.p0c iStart (selectMask maskCopy part.p0c)
    gamma0 := setRange self1.gamma0 iStart (selectMask maskCopy part.gamma0)
    beta0 := setRange self1.beta0 iStart (selectMask maskCopy part.beta0)
    s := setRange self1.s iStart (selectMask maskCopy part.s)
    x := setRange self1.x iStart (selectMask maskCopy part.x)
    y := setRange self1.y iStart (selectMask maskCopy part.y)
    px := setRange self1.px iStart (selectMask maskCopy part.px)
    py := setRange self1.py iStart (selectMask maskCopy part.py)
    zeta := setRange self1.zeta iStart (selectMask maskCopy part.zeta)
    psigma := setRange self1.psigma iStart (selectMask maskCopy part.psigma)
    delta := setRange self1.delta iStart (selectMask maskCopy part.delta)
    rpp := setRange self1.rpp iStart (selectMask maskCopy part.rpp)
    rvv := setRange self1.rvv iStart (selectMask maskCopy part.rvv)
    chi := setRange self1.chi iStart (selectMask maskCopy part.chi)
    charge_ratio :=
      setRange self1.charge_ratio iStart (selectMask maskCopy part.charge_ratio)
    weight := setRange self1.weight iStart (selectMask maskCopy part.weight)
    particle_id :=
      setRange self1.particle_id iStart (selectMask maskCopy part.particle_id)
    at_element :=
      setRange self1.at_element iStart (selectMask maskCopy part.at_element)
    at_turn := setRange self1.at_turn iStart (selectMask maskCopy part.at_turn)
    state := setRange self1.state iStart (selectMask maskCopy part.state)
    parent_particle_id := setRange self1.parent_particle_id iStart
      (selectMask maskCopy part.parent_particle_id)
    rng_s1 := setRange self1.rng_s1 iStart (selectMask maskCopy part.rng_s1)
    rng_s2 := setRange self1.rng_s2 iStart (selectMask maskCopy part.rng_s2)
    rng_s3 := setRange self1.rng_s3 iStart (selectMask maskCopy part.rng_s3)
    rng_s4 := setRange self1.rng_s4 iStart (selectMask maskCopy part.rng_s4) }

/-- The receiver right before the final `reorganize()` of `add_particles`:
compacted, with the alive donor values copied into its free region and the
copied block's identifiers overwritten by the fresh contiguous block
starting at `maxId + 1`. -/
def merged (self part : Particles) (maxId : ℤ) : Particles :=
  { copyFields (reorganize self).1 part (part.state.map aliveP)
      ((reorganize self).2.1 + (reorganize self).2.2) with
    particle_id := setRange
      (copyFields (reorganize self).1 part (part.state.map aliveP)
        ((reorganize self).2.1 + (reorganize self).2.2)).particle_id
      ((reorganize self).2.1 + (reorganize self).2.2)
      (newIds maxId ((part.state.map aliveP).count true)) }

/-- Embedding of `Particles.add_particles`.  Mirrors the source order of
events: reject `keep_lost`, compact the receiver, take the maximum
existing identifier over the compacted valid prefix (`np.max` fails on an
empty slice), reject a donor alive-count larger than the free space,
check the scalar reference fields within tolerance, copy the alive donor
values into the free region, overwrite their identifiers with a fresh
contiguous block, and compact the receiver again.  The returned pair
carries the receiver as mutated so far together with the failure mode, if
any (`none` on success). -/
def add_particles (self part : Particles) (keep_lost : Bool) :
    Particles × Option MergeError :=
  if keep_lost then (self, some MergeError.notImplemented)
  else
    match listMaxOpt ((reorganize self).1.particle_id.take
        ((reorganize self).2.1 + (reorganize self).2.2)) with
    | none => ((reorganize self).1, some MergeError.emptyMax)
    | some maxId =>
      if self.capacity - (reorganize self).2.1 - (reorganize self).2.2 <
          (part.state.map aliveP).count true then
        ((reorganize self).1, some MergeError.capacityExceeded)
      else if isclose14 (reorganize self).1.q0 part.q0 &&
          isclose14 (reorganize self).1.mass0 part.mass0 then
        ((reorganize (merged self part maxId)).1, none)
      else ((reorganize self).1, some MergeError.scalarMismatch)

/-- Receiver for the C2 counterexample and witness: capacity 2, one lost
slot before one alive slot (so compaction visibly permutes the arrays),
no free slot. -/
def pW2r : Particles := mkP 2 [0, 1] [0, 1]

/-- Donor for the C2 counterexample and witness: two alive particles. -/
def pW2d : Particles := mkP 2 [1, 1] [0, 1]

/-- Receiver for the C10 witness: every slot invalid. -/
def pW10r : Particles := mkP 2 [LAST_INVALID_STATE, LAST_INVALID_STATE] [0, 0]

/-- Receiver for the C5 witness: one alive, one lost, one sentinel slot. -/
def pW5r : Particles := mkP 3 [1, 0, LAST_INVALID_STATE] [7, 3, 9]

/-- Donor for the C5 witness: a single alive particle. -/
def pW5d : Particles := mkP 1 [1] [0]

/-- Scalar kinematics of `update_delta` (source lines 392-400):
`delta_beta0 = new_delta * beta0`;
`ptau_beta0 = (delta_beta0*delta_beta0 + 2*delta_beta0*beta0 + 1)**0.5 - 1`.
The `**0.5` is embedded as `Real.sqrt`; for the physical domain
(`delta > -1`, `0 < beta0 < 1`) the argument is positive, so the two
agree. -/
noncomputable def ud_ptau_beta0 (beta0 nd : ℝ) : ℝ :=
  Real.sqrt (nd * beta0 * (nd * beta0) + 2 * (nd * beta0) * beta0 + 1) - 1

/-- The `rvv = (1 + new_delta) / (1 + ptau_beta0)` of `update_delta`. -/
noncomputable def ud_rvv (beta0 nd : ℝ) : ℝ :=
  (1 + nd) / (1 + ud_ptau_beta0 beta0 nd)

/-- The `rpp = 1 / (1 + new_delta)` of `update_delta`. -/
noncomputable def ud_rpp (nd : ℝ) : ℝ := 1 / (1 + nd)

/-- The `psigma = ptau_beta0 / (beta0 * beta0)` of `update_delta`. -/
noncomputable def ud_psigma (beta0 nd : ℝ) : ℝ :=
  ud_ptau_beta0 beta0 nd / (beta0 * beta0)

/-- Embedding of `Particles.update_delta` for a scalar `new_delta_value`:
fills `delta` with the new value and overwrites `rvv`, `rpp`, `psigma`
with the derived arrays (computed elementwise from `beta0`); every other
field of the ensemble is untouched. -/
noncomputable def update_delta (p : Particles) (nd : ℝ) : Particles :=
  { p with
    delta := p.delta.map (fun _ => nd)
    rvv := p.beta0.map (fun b => ud_rvv b nd)
    rpp := p.rpp.map (fun _ => ud_rpp nd)
    psigma := p.beta0.map (fun b => ud_psigma b nd) }

/-- Python exceptions relevant to the RNG seeding routine. -/
inductive PyExc
  | nameError
  | assertionError
deriving DecidableEq

/-- The names defined at module scope of `particles.py` (imports, the
module constants, the field tables with their leaked loop variables, the
two classes and the module functions).  `particles` is not among them. -/
def pyModuleGlobals : List String :=
  ["np", "xo", "Pyparticles", "_pkg_root", "m_p", "qe", "clight", "pmass",
   "LAST_INVALID_STATE", "size_vars", "scalar_vars", "part_energy_vars",
   "per_particle_vars", "fields", "tt", "nn", "ParticlesData", "Particles",
   "_str_in_list", "part_energy_varnames", "gen_local_particle_api",
   "_pyparticles_to_xpart_dict"]

/-- Python name resolution inside a method body: a name is found among the
locals or the module globals, otherwise evaluating it raises `NameError`. -/
def resolveName (locals : List String) (n : String) : Except PyExc Unit :=
  if n ∈ locals ∨ n ∈ pyModuleGlobals then Except.ok () else Except.error PyExc.nameError

/-- Embedding of the explicit-seeds branch of
`Particles._init_random_number_generator` (source lines 211-226; the
`seeds is None` branch draws random seeds and is outside this model).
The branch executes `assert len(seeds) == particles._capacity`: evaluating
the right operand resolves the name `particles`, which is bound neither
locally (the locals are `self` and `seeds`) nor at module scope, so the
statement raises `NameError` before the length comparison.  The
continuation after the lookup models what the surrounding code intends —
compare against the capacity (`AssertionError` on mismatch), coerce to
32-bit unsigned and invoke the per-particle initialization kernel, here
represented by returning the coerced seed array. -/
def initRandomNumberGenerator (self : Particles) (seeds : List ℕ) :
    Except PyExc (List ℕ) :=
  (resolveName ["self", "seeds"] "particles").bind (fun _ =>
    if seeds.length = self.capacity then
      Except.ok (seeds.map (fun w => w % 4294967296))
    else Except.error PyExc.assertionError)

/-- Abstract lines of the generated Local-Particle C source: inert
scaffolding (headers, braces), the two frozen-variable comment markers,
the three mutation statements, and the getter's return statement. -/
inductive CLine
  | text
  | commentOpen
  | commentClose
  | setStmt
  | addStmt
  | scaleStmt
  | returnStmt
deriving DecidableEq

/-- Embedding of `_str_in_list` (source lines 417-427): a loop with early
exit, equivalent to membership by `==`. -/
def strInList (string : String) (str_list : List String) : Bool :=
  match str_list with
  | [] => false
  | ss :: rest => if ss == string then true else strInList string rest

/-- The 25 per-particle variable names of `per_particle_vars`, in source
order. -/
def perParticleVarNames : List String :=
  ["p0c", "gamma0", "beta0", "s", "x", "y", "px", "py", "zeta",
   "psigma", "delta", "rpp", "rvv",
   "chi", "charge_ratio", "weight", "particle_id", "at_element", "at_turn",
   "state", "parent_particle_id", "__rng_s1", "__rng_s2", "__rng_s3",
   "__rng_s4"]

/-- Body emitted for one mutator of one variable, following the shared
shape of the adder, scaler and setter loops of `gen_local_particle_api`
(source lines 487-530): header line, then — when the variable is frozen —
the opening comment marker, the mutation statement, the closing comment
marker when frozen, and the closing brace. -/
def genMutatorBody (stmt : CLine) (vv : String) (freeze_vars : List String) :
    List CLine :=
  [CLine.text] ++
    (if strInList vv freeze_vars then [CLine.commentOpen] else []) ++
    [stmt] ++
    (if strInList vv freeze_vars then [CLine.commentClose] else []) ++
    [CLine.text]

/-- The emitted `LocalParticle_add_to_<vv>` body. -/
def genAdderBody (vv : String) (freeze_vars : List String) : List CLine :=
  genMutatorBody CLine.addStmt vv freeze_vars

/-- The emitted `LocalParticle_scale_<vv>` body. -/
def genScalerBody (vv : String) (freeze_vars : List String) : List CLine :=
  genMutatorBody CLine.scaleStmt vv freeze_vars

/-- The emitted `LocalParticle_set_<vv>` body. -/
def genSetterBody (vv : String) (freeze_vars : List String) : List CLine :=
  genMutatorBody CLine.setStmt vv freeze_vars

/-- The emitted `LocalParticle_get_<vv>` body (source lines 541-547):
marker comment, header, the return statement, closing brace — with no
frozen-variable conditional. -/
def genGetterBody (_vv : String) : List CLine :=
  [CLine.text, CLine.text, CLine.returnStmt, CLine.text]

/-- The adder loop over all per-particle variables. -/
def genAdders (freeze_vars : List String) : List (String × List CLine) :=
  perParticleVarNames.map (fun vv => (vv, genAdderBody vv freeze_vars))

/-- The scaler loop over all per-particle variables. -/
def genScalers (freeze_vars : List String) : List (String × List CLine) :=
  perParticleVarNames.map (fun vv => (vv, genScalerBody vv freeze_vars))

/-- The setter loop over all per-particle variables. -/
def genSetters (freeze_vars : List String) : List (String × List CLine) :=
  perParticleVarNames.map (fun vv => (vv, genSetterBody vv freeze_vars))

/-- Execution of an emitted mutator body on the cell
`part->vv[part->ipart]` under C comment semantics: a statement sitting
between the `/* frozen variable!` marker and the matching `frozen
variable!*/` marker is text, not code.  `value` is the function argument,
the final result is the cell's value after the call. -/
def runMutator {α : Type} [Add α] [Mul α] (value : α) :
    List CLine → Bool → α → α
  | [], _, st => st
  | CLine.commentOpen :: rest, _, st => runMutator value rest true st
  | CLine.commentClose :: rest, _, st => runMutator value rest false st
  | CLine.setStmt :: rest, inC, st =>
      runMutator value rest inC (if inC then st else value)
  | CLine.addStmt :: rest, inC, st =>
      runMutator value rest inC (if inC then st else st + value)
  | CLine.scaleStmt :: rest, inC, st =>
      runMutator value rest inC (if inC then st else st * value)
  | CLine.text :: rest, inC, st => runMutator value rest inC st
  | CLine.returnStmt :: rest, inC, st => runMutator value rest inC st

/-- Execution of an emitted getter body: the value returned by the first
live return statement, `none` if no live return is reached. -/
def runGetter {α : Type} : List CLine → Bool → α → Option α
  | [], _, _ => none
  | CLine.returnStmt :: _, false, st => some st
  | CLine.commentOpen :: rest, _, st => runGetter rest true st
  | CLine.commentClose :: rest, _, st => runGetter rest false st
  | _ :: rest, inC, st => runGetter rest inC st

/-- Concrete ensemble for the C1 witness: one alive, two lost-but-valid and
one sentinel slot, deliberately out of canonical order. -/
def pW1 : Particles := mkP 4 [0, 1, LAST_INVALID_STATE, -5] [0, 1, 2, 3]

section SelectMaskLemmas

variable {α : Type}

theorem selectMask_nil (m : List Bool) : selectMask m ([] : List α) = [] := by
  cases m <;> rfl

theorem selectMask_cons (b : Bool) (ms : List Bool) (a : α) (as : List α) :
    selectMask (b :: ms) (a :: as) =
      if b then a :: selectMask ms as else selectMask ms as := rfl

theorem selectMask_map_self (f : ℤ → Bool) (l : List ℤ) :
    selectMask (l.map f) l = l.filter f := by
  induction l with
  | nil => rfl
  | cons a as ih =>
      simp only [List.map_cons, selectMask_cons, List.filter_cons, ih]

theorem length_selectMask (m : List Bool) (l : List α) (h : m.length = l.length) :
    (selectMask m l).length = m.count true := by
  induction m generalizing l with
  | nil => cases l <;> simp [selectMask]
  | cons b ms ih =>
      cases l with
      | nil => simp at h
      | cons a as =>
          simp only [List.length_cons, Nat.succ.injEq] at h
          cases b <;> simp [selectMask_cons, ih as h, List.count_cons]

theorem selectMask_append (m₁ m₂ : List Bool) (l₁ l₂ : List α)
    (h : m₁.length = l₁.length) :
    selectMask (m₁ ++ m₂) (l₁ ++ l₂) = selectMask m₁ l₁ ++ selectMask m₂ l₂ := by
  induction m₁ generalizing l₁ with
  | nil => cases l₁ <;> simp_all [selectMask]
  | cons b ms ih =>
      cases l₁ with
      | nil => simp at h
      | cons a as =>
          simp only [List.length_cons, Nat.succ.injEq] at h
          cases b <;> simp [selectMask_cons, ih as h]

theorem selectMask_replicate_true (n : ℕ) (l : List α) (h : l.length = n) :
    selectMask (List.replicate n true) l = l := by
  subst h
  induction l with
  | nil => rfl
  | cons a as ih => simp [List.replicate, selectMask_cons, ih]

theorem selectMask_replicate_false (n : ℕ) (l : List α) :
    selectMask (List.replicate n false) l = [] := by
  induction l generalizing n with
  | nil => cases n <;> rfl
  | cons a as ih =>
      cases n with
      | zero => rfl
      | succ k => simp [List.replicate, selectMask_cons, ih k]

theorem map_eq_replicate_true {f : ℤ → Bool} {l : List ℤ}
    (h : ∀ z ∈ l, f z = true) : l.map f = List.replicate l.length true := by
  induction l with
  | nil => rfl
  | cons a as ih =>
      simp only [List.map_cons, List.length_cons, List.replicate]
      rw [h a (List.mem_cons_self a as), ih fun z hz => h z (List.mem_cons_of_mem a hz)]

theorem map_eq_replicate_false {f : ℤ → Bool} {l : List ℤ}
    (h : ∀ z ∈ l, f z = false) : l.map f = List.replicate l.length false := by
  induction l with
  | nil => rfl
  | cons a as ih =>
      simp only [List.map_cons, List.length_cons, List.replicate]
      rw [h a (List.mem_cons_self a as), ih fun z hz => h z (List.mem_cons_of_mem a hz)]

theorem count_true_replicate_true (n : ℕ) : (List.replicate n true).count true = n := by
  simp [List.count_replicate]

theorem count_true_replicate_false (n : ℕ) : (List.replicate n false).count true = 0 := by
  simp [List.count_replicate]

theorem count_true_map (f : ℤ → Bool) (l : List ℤ) :
    (l.map f).count true = l.countP f := by
  induction l with
  | nil => rfl
  | cons a as ih =>
      simp only [List.map_cons, List.count_cons, List.countP_cons, ih]
      cases h : f a <;> simp [h]

end SelectMaskLemmas

section GetDLemmas

variable {α : Type}

theorem getD_append_lt (l₁ l₂ : List α) (i : ℕ) (d : α) (h : i < l₁.length) :
    (l₁ ++ l₂).getD i d = l₁.getD i d := by
  induction l₁ generalizing i with
  | nil => simp at h
  | cons a as ih =>
      cases i with
      | zero => rfl
      | succ j =>
          simp only [List.length_cons, Nat.succ_lt_succ_iff] at h
          simpa using ih j h

theorem getD_append_ge (l₁ l₂ : List α) (i : ℕ) (d : α) (h : l₁.length ≤ i) :
    (l₁ ++ l₂).getD i d = l₂.getD (i - l₁.length) d := by
  induction l₁ generalizing i with
  | nil => simp
  | cons a as ih =>
      cases i with
      | zero => simp at h
      | succ j =>
          simp only [List.length_cons, Nat.succ_le_succ_iff] at h
          simpa using ih j h

theorem getD_replicate (n : ℕ) (a d : α) (i : ℕ) (h : i < n) :
    (List.replicate n a).getD i d = a := by
  induction n generalizing i with
  | zero => simp at h
  | succ k ih =>
      cases i with
      | zero => rfl
      | succ j => simpa [List.replicate] using ih j (Nat.succ_lt_succ_iff.mp h)

theorem getD_mem (l : List α) (i : ℕ) (d : α) (h : i < l.length) :
    l.getD i d ∈ l := by
  induction l generalizing i with
  | nil => simp at h
  | cons a as ih =>
      cases i with
      | zero => exact List.mem_cons_self a as
      | succ j =>
          simp only [List.length_cons, Nat.succ_lt_succ_iff] at h
          exact List.mem_cons_of_mem a (ih j h)

end GetDLemmas

theorem countP_alive_add_lost_le (l : List ℤ) :
    l.countP aliveP + l.countP lostP ≤ l.length := by
  induction l with
  | nil => simp
  | cons a as ih =>
      simp only [List.countP_cons, List.length_cons]
      have hdisj : ¬(aliveP a = true ∧ lostP a = true) := by
        rintro ⟨h1, h2⟩
        simp only [aliveP, decide_eq_true_eq] at h1
        simp only [lostP, Bool.and_eq_true, decide_eq_true_eq] at h2
        omega
      by_cases h1 : aliveP a = true <;> by_cases h2 : lostP a = true <;>
        simp [h1, h2] at hdisj ⊢ <;> omega

/-- The `state` array produced by `reorganize`, in explicit
filter-filter-sentinel-tail form. -/
theorem reorganize_state_eq (p : Particles) :
    (reorganize p).1.state =
      p.state.filter aliveP ++ p.state.filter lostP ++
        List.replicate (p.capacity - (nActive p + nLost p)) LAST_INVALID_STATE := by
  show reorgArr (p.state.map aliveP) (p.state.map lostP)
      ((p.state.map aliveP).count true) ((p.state.map lostP).count true)
      LAST_INVALID_STATE p.capacity p.state = _
  rw [reorgArr, selectMask_map_self, selectMask_map_self,
    count_true_map, count_true_map]
  rfl

theorem reorganize_counts (p : Particles) :
    (reorganize p).2 = (nActive p, nLost p) := by
  show ((p.state.map aliveP).count true, (p.state.map lostP).count true) = _
  rw [count_true_map, count_true_map]; rfl

theorem length_filter_aliveP (l : List ℤ) :
    (l.filter aliveP).length = l.countP aliveP :=
  (List.countP_eq_length_filter aliveP l).symm

theorem length_filter_lostP (l : List ℤ) :
    (l.filter lostP).length = l.countP lostP :=
  (List.countP_eq_length_filter lostP l).symm

/-- C1.  After `reorganize()` returns `(num_active, num_lost)`, the state
array is three-way partitioned: every index below `num_active` holds a
state `> 0`, every index in `[num_active, num_active+num_lost)` holds a
state in `(sentinel, 0]`, every index from `num_active+num_lost` up to
`capacity` holds exactly the sentinel `-999999999`; and the returned
counts are the numbers of alive and of lost-but-valid slots of the
pre-call ensemble. -/
theorem reorganize_partition (p : Particles) (hlen : p.state.length = p.capacity) :
    ((reorganize p).1.state.length = p.capacity ∧
      (∀ i, i < (reorganize p).2.1 → 0 < (reorganize p).1.state.getD i 0) ∧
      (∀ i, (reorganize p).2.1 ≤ i → i < (reorganize p).2.1 + (reorganize p).2.2 →
        LAST_INVALID_STATE < (reorganize p).1.state.getD i 0 ∧
          (reorganize p).1.state.getD i 0 ≤ 0) ∧
      (∀ i, (reorganize p).2.1 + (reorganize p).2.2 ≤ i → i < p.capacity →
        (reorganize p).1.state.getD i 0 = LAST_INVALID_STATE)) ∧
    (reorganize p).2.1 = p.state.countP (fun z => decide (0 < z)) ∧
    (reorganize p).2.2 =
      p.state.countP (fun z => decide (LAST_INVALID_STATE < z ∧ z ≤ 0)) := by
  have hc := reorganize_counts p
  have hc1 : (reorganize p).2.1 = nActive p := by rw [hc]
  have hc2 : (reorganize p).2.2 = nLost p := by rw [hc]
  have hst := reorganize_state_eq p
  have hlenA : (p.state.filter aliveP).length = nActive p := length_filter_aliveP p.state
  have hlenL : (p.state.filter lostP).length = nLost p := length_filter_lostP p.state
  have hsum : nActive p + nLost p ≤ p.capacity := by
    have := countP_alive_add_lost_le p.state
    rw [hlen] at this
    exact this
  refine ⟨⟨?_, ?_, ?_, ?_⟩, ?_, ?_⟩
  · rw [hst]
    simp only [List.length_append, List.length_replicate, hlenA, hlenL]
    omega
  · intro i hi
    rw [hc1] at hi
    rw [hst, List.append_assoc, getD_append_lt _ _ _ _ (by omega)]
    have hmem : (p.state.filter aliveP).getD i 0 ∈ p.state.filter aliveP :=
      getD_mem _ _ _ (by omega)
    have := List.of_mem_filter hmem
    simpa [aliveP] using this
  · intro i hi1 hi2
    rw [hc1] at hi1
    rw [hc1, hc2] at hi2
    rw [hst, List.append_assoc, getD_append_ge _ _ _ _ (by omega),
      getD_append_lt _ _ _ _ (by omega)]
    have hmem : (p.state.filter lostP).getD (i - (p.state.filter aliveP).length) 0 ∈
        p.state.filter lostP :=
      getD_mem _ _ _ (by omega)
    have := List.of_mem_filter hmem
    simp only [lostP, Bool.and_eq_true, decide_eq_true_eq] at this
    omega
  · intro i hi1 hi2
    rw [hc1, hc2] at hi1
    rw [hst, List.append_assoc, getD_append_ge _ _ _ _ (by omega),
      getD_append_ge _ _ _ _ (by omega)]
    exact getD_replicate _ _ _ _ (by omega)
  · rw [hc1]; rfl
  · rw [hc2]
    show p.state.countP lostP = _
    refine List.countP_congr ?_
    intro z _
    simp only [lostP, Bool.and_eq_true, decide_eq_true_eq, decide_eq_decide]
    omega

theorem aliveP_of_lost {z : ℤ} (h : lostP z = true) : aliveP z = false := by
  simp only [lostP, Bool.and_eq_true, decide_eq_true_eq] at h
  simp only [aliveP, decide_eq_false_iff_not]
  omega

theorem lostP_of_alive {z : ℤ} (h : aliveP z = true) : lostP z = false := by
  simp only [aliveP, decide_eq_true_eq] at h
  simp only [lostP, Bool.and_eq_false_iff, decide_eq_false_iff_not]
  omega

theorem aliveP_sent : aliveP LAST_INVALID_STATE = false := by decide

theorem lostP_sent : lostP LAST_INVALID_STATE = false := by decide

/-- Alive mask of a canonically partitioned state array. -/
theorem map_alive_canonical (sA sL : List ℤ) (k : ℕ)
    (hA : ∀ z ∈ sA, aliveP z = true) (hL : ∀ z ∈ sL, lostP z = true) :
    (sA ++ sL ++ List.replicate k LAST_INVALID_STATE).map aliveP =
      List.replicate sA.length true ++
        (List.replicate sL.length false ++ List.replicate k false) := by
  rw [List.append_assoc, List.map_append, List.map_append,
    map_eq_replicate_true hA, map_eq_replicate_false (fun z hz => aliveP_of_lost (hL z hz)),
    List.map_replicate, aliveP_sent]

/-- Lost mask of a canonically partitioned state array. -/
theorem map_lost_canonical (sA sL : List ℤ) (k : ℕ)
    (hA : ∀ z ∈ sA, aliveP z = true) (hL : ∀ z ∈ sL, lostP z = true) :
    (sA ++ sL ++ List.replicate k LAST_INVALID_STATE).map lostP =
      List.replicate sA.length false ++
        (List.replicate sL.length true ++ List.replicate k false) := by
  rw [List.append_assoc, List.map_append, List.map_append,
    map_eq_replicate_false (fun z hz => lostP_of_alive (hA z hz)),
    map_eq_replicate_true hL, List.map_replicate, lostP_sent]

theorem count_alive_canonical (sA sL : List ℤ) (k : ℕ)
    (hA : ∀ z ∈ sA, aliveP z = true) (hL : ∀ z ∈ sL, lostP z = true) :
    ((sA ++ sL ++ List.replicate k LAST_INVALID_STATE).map aliveP).count true =
      sA.length := by
  rw [map_alive_canonical sA sL k hA hL]
  simp [List.count_append, List.count_replicate]

theorem count_lost_canonical (sA sL : List ℤ) (k : ℕ)
    (hA : ∀ z ∈ sA, aliveP z = true) (hL : ∀ z ∈ sL, lostP z = true) :
    ((sA ++ sL ++ List.replicate k LAST_INVALID_STATE).map lostP).count true =
      sL.length := by
  rw [map_lost_canonical sA sL k hA hL]
  simp [List.count_append, List.count_replicate]

/-- Applying the partition step to an already canonically partitioned
array is the identity: the key fact behind idempotence of `reorganize`. -/
theorem reorgArr_second {α : Type} (sA sL : List ℤ) (k cap : ℕ) (vA vL : List α)
    (sent : α)
    (hA : ∀ z ∈ sA, aliveP z = true) (hL : ∀ z ∈ sL, lostP z = true)
    (hlA : vA.length = sA.length) (hlL : vL.length = sL.length)
    (hcap : cap = sA.length + sL.length + k) :
    reorgArr ((sA ++ sL ++ List.replicate k LAST_INVALID_STATE).map aliveP)
      ((sA ++ sL ++ List.replicate k LAST_INVALID_STATE).map lostP)
      (((sA ++ sL ++ List.replicate k LAST_INVALID_STATE).map aliveP).count true)
      (((sA ++ sL ++ List.replicate k LAST_INVALID_STATE).map lostP).count true)
      sent cap (vA ++ vL ++ List.replicate k sent)
    = vA ++ vL ++ List.replicate k sent := by
  have e1 : selectMask (List.replicate sA.length true) vA = vA :=
    selectMask_replicate_true _ _ hlA
  have e2 : selectMask (List.replicate sL.length true) vL = vL :=
    selectMask_replicate_true _ _ hlL
  rw [reorgArr, count_alive_canonical sA sL k hA hL, count_lost_canonical sA sL k hA hL,
    map_alive_canonical sA sL k hA hL, map_lost_canonical sA sL k hA hL]
  rw [List.append_assoc vA vL]
  rw [selectMask_append _ _ _ _ (by simp [hlA, hlL]),
    selectMask_append _ _ _ _ (by simp [hlA, hlL]),
    selectMask_append _ _ _ _ (by simp [hlA, hlL]),
    selectMask_append _ _ _ _ (by simp [hlA, hlL])]
  simp only [e1, e2, selectMask_replicate_false, List.append_nil, List.nil_append]
  have hk : cap - (sA.length + sL.length) = k := by omega
  rw [hk]
  simp [List.append_assoc]

/-- One per-particle array is unchanged by a second `reorganize` pass. -/
theorem reorg_field_idem {α : Type} (sent : α) (p : Particles)
    (hs : p.state.length = p.capacity) (vv : List α) (hv : vv.length = p.capacity) :
    reorgArr ((reorganize p).1.state.map aliveP) ((reorganize p).1.state.map lostP)
      (((reorganize p).1.state.map aliveP).count true)
      (((reorganize p).1.state.map lostP).count true)
      sent p.capacity
      (reorgArr (p.state.map aliveP) (p.state.map lostP)
        ((p.state.map aliveP).count true) ((p.state.map lostP).count true)
        sent p.capacity vv)
    = reorgArr (p.state.map aliveP) (p.state.map lostP)
        ((p.state.map aliveP).count true) ((p.state.map lostP).count true)
        sent p.capacity vv := by
  have hstate := reorganize_state_eq p
  have hsum : nActive p + nLost p ≤ p.capacity := by
    have := countP_alive_add_lost_le p.state
    rw [hs] at this
    exact this
  have hA : ∀ z ∈ p.state.filter aliveP, aliveP z = true := fun z hz =>
    List.of_mem_filter hz
  have hL : ∀ z ∈ p.state.filter lostP, lostP z = true := fun z hz =>
    List.of_mem_filter hz
  have hcA : (p.state.map aliveP).count true = nActive p := count_true_map _ _
  have hcL : (p.state.map lostP).count true = nLost p := count_true_map _ _
  have hmaskA : (p.state.map aliveP).length = vv.length := by
    rw [List.length_map, hs, hv]
  have hmaskL : (p.state.map lostP).length = vv.length := by
    rw [List.length_map, hs, hv]
  have hlA : (selectMask (p.state.map aliveP) vv).length =
      (p.state.filter aliveP).length := by
    rw [length_selectMask _ _ hmaskA, hcA, length_filter_aliveP]
    rfl
  have hlL : (selectMask (p.state.map lostP) vv).length =
      (p.state.filter lostP).length := by
    rw [length_selectMask _ _ hmaskL, hcL, length_filter_lostP]
    rfl
  conv_lhs =>
    rw [hstate]
    rw [show reorgArr (p.state.map aliveP) (p.state.map lostP)
        ((p.state.map aliveP).count true) ((p.state.map lostP).count true)
        sent p.capacity vv =
      selectMask (p.state.map aliveP) vv ++ selectMask (p.state.map lostP) vv ++
        List.replicate (p.capacity - (nActive p + nLost p)) sent from by
        rw [reorgArr, hcA, hcL]]
  rw [reorgArr_second _ _ _ _ _ _ _ hA hL hlA hlL
    (by
      rw [length_filter_aliveP, length_filter_lostP]
      show p.capacity = nActive p + nLost p + (p.capacity - (nActive p + nLost p))
      omega)]
  rw [reorgArr, hcA, hcL]

/-- The counts returned by a second `reorganize` pass agree with the first. -/
theorem reorganize_counts_second (p : Particles) :
    (reorganize (reorganize p).1).2 = (reorganize p).2 := by
  have hstate := reorganize_state_eq p
  have hA : ∀ z ∈ p.state.filter aliveP, aliveP z = true := fun z hz =>
    List.of_mem_filter hz
  have hL : ∀ z ∈ p.state.filter lostP, lostP z = true := fun z hz =>
    List.of_mem_filter hz
  show (((reorganize p).1.state.map aliveP).count true,
      ((reorganize p).1.state.map lostP).count true) =
    ((p.state.map aliveP).count true, (p.state.map lostP).count true)
  rw [hstate, count_alive_canonical _ _ _ hA hL, count_lost_canonical _ _ _ hA hL,
    length_filter_aliveP, length_filter_lostP, count_true_map, count_true_map]

/-- C4.  `reorganize()` is idempotent: running it a second time right after
a first run leaves every field array (and the returned counts) exactly as
the first run left them. -/
theorem reorganize_idempotent (p : Particles) (hwf : WF p) :
    reorganize (reorganize p).1 = reorganize p := by
  obtain ⟨hp0c, hgam, hbet, hls, hx, hy, hpx, hpy, hzet, hpsi, hdel, hrpp, hrvv,
    hchi, hcr, hw, hpid, hae, hat, hst, hpp, hr1, hr2, hr3, hr4⟩ := hwf
  have hfst : (reorganize (reorganize p).1).1 = (reorganize p).1 := by
    refine Particles.ext rfl rfl rfl ?_ ?_ ?_ ?_ ?_ ?_ ?_ ?_ ?_ ?_ ?_ ?_ ?_ ?_ ?_
      ?_ ?_ ?_ ?_ ?_ ?_ ?_ ?_ ?_ ?_
    · exact reorg_field_idem rSent p hst p.p0c hp0c
    · exact reorg_field_idem rSent p hst p.gamma0 hgam
    · exact reorg_field_idem rSent p hst p.beta0 hbet
    · exact reorg_field_idem rSent p hst p.s hls
    · exact reorg_field_idem rSent p hst p.x hx
    · exact reorg_field_idem rSent p hst p.y hy
    · exact reorg_field_idem rSent p hst p.px hpx
    · exact reorg_field_idem rSent p hst p.py hpy
    · exact reorg_field_idem rSent p hst p.zeta hzet
    · exact reorg_field_idem rSent p hst p.psigma hpsi
    · exact reorg_field_idem rSent p hst p.delta hdel
    · exact reorg_field_idem rSent p hst p.rpp hrpp
    · exact reorg_field_idem rSent p hst p.rvv hrvv
    · exact reorg_field_idem rSent p hst p.chi hchi
    · exact reorg_field_idem rSent p hst p.charge_ratio hcr
    · exact reorg_field_idem rSent p hst p.weight hw
    · exact reorg_field_idem LAST_INVALID_STATE p hst p.particle_id hpid
    · exact reorg_field_idem LAST_INVALID_STATE p hst p.at_element hae
    · exact reorg_field_idem LAST_INVALID_STATE p hst p.at_turn hat
    · exact reorg_field_idem LAST_INVALID_STATE p hst p.state hst
    · exact reorg_field_idem LAST_INVALID_STATE p hst p.parent_particle_id hpp
    · exact reorg_field_idem uSent p hst p.rng_s1 hr1
    · exact reorg_field_idem uSent p hst p.rng_s2 hr2
    · exact reorg_field_idem uSent p hst p.rng_s3 hr3
    · exact reorg_field_idem uSent p hst p.rng_s4 hr4
  exact Prod.ext hfst (reorganize_counts_second p)

/-- Witness for C4 at a concrete out-of-order ensemble. -/
theorem reorganize_idempotent_witness :
    WF pW4 ∧ reorganize (reorganize pW4).1 = reorganize pW4 :=
  ⟨by decide, reorganize_idempotent pW4 (by decide)⟩

theorem listMaxOpt_ne_none {l : List ℤ} (h : l ≠ []) : ∃ m, listMaxOpt l = some m := by
  cases l with
  | nil => exact absurd rfl h
  | cons a as =>
      cases has : listMaxOpt as with
      | none => exact ⟨a, by simp [listMaxOpt, has]⟩
      | some m => exact ⟨max a m, by simp [listMaxOpt, has]⟩

theorem listMaxOpt_eq_none {l : List ℤ} (h : listMaxOpt l = none) : l = [] := by
  cases l with
  | nil => rfl
  | cons a as =>
      rw [listMaxOpt] at h
      cases has : listMaxOpt as <;> rw [has] at h <;> simp at h

theorem le_of_listMaxOpt : ∀ {l : List ℤ} {m : ℤ}, listMaxOpt l = some m →
    ∀ x ∈ l, x ≤ m := by
  intro l
  induction l with
  | nil => intro m h x hx; simp at hx
  | cons a as ih =>
      intro m h x hx
      rw [listMaxOpt] at h
      cases has : listMaxOpt as with
      | none =>
          rw [has] at h
          have hnil := listMaxOpt_eq_none has
          subst hnil
          simp only [Option.some.injEq] at h
          subst h
          rcases List.mem_singleton.mp hx with rfl
          exact le_refl x
      | some m2 =>
          rw [has] at h
          simp only [Option.some.injEq] at h
          subst h
          rcases List.mem_cons.mp hx with rfl | hx2
          · exact le_max_left _ _
          · exact le_trans (ih has x hx2) (le_max_right _ _)

/-- Length of the array produced by one `reorganize` field pass. -/
theorem length_reorgArr (p : Particles) {α : Type} (sent : α) (vv : List α)
    (hv : vv.length = p.capacity) (hs : p.state.length = p.capacity) :
    (reorgArr (p.state.map aliveP) (p.state.map lostP)
      ((p.state.map aliveP).count true) ((p.state.map lostP).count true)
      sent p.capacity vv).length = p.capacity := by
  have hsum := countP_alive_add_lost_le p.state
  rw [hs] at hsum
  have lsA : (selectMask (p.state.map aliveP) vv).length =
      (p.state.map aliveP).count true :=
    length_selectMask _ _ (by rw [List.length_map, hs, hv])
  have lsL : (selectMask (p.state.map lostP) vv).length =
      (p.state.map lostP).count true :=
    length_selectMask _ _ (by rw [List.length_map, hs, hv])
  rw [reorgArr]
  simp only [List.length_append, List.length_replicate, lsA, lsL, count_true_map]
  omega

/-- Dispatch lemma: when the compacted receiver has no valid slot at all,
`add_particles` stops at the empty `np.max` with the receiver compacted
and nothing copied. -/
theorem add_particles_max_none (self part : Particles)
    (h : listMaxOpt ((reorganize self).1.particle_id.take
      ((reorganize self).2.1 + (reorganize self).2.2)) = none) :
    add_particles self part false = ((reorganize self).1, some MergeError.emptyMax) := by
  unfold add_particles
  rw [if_neg (by simp), h]

/-- Dispatch lemma: when the alive donor count exceeds the free space, the
call stops with the capacity error, the receiver compacted and nothing
copied. -/
theorem add_particles_over_capacity (self part : Particles) (m : ℤ)
    (hmax : listMaxOpt ((reorganize self).1.particle_id.take
      ((reorganize self).2.1 + (reorganize self).2.2)) = some m)
    (hover : self.capacity - (reorganize self).2.1 - (reorganize self).2.2 <
      (part.state.map aliveP).count true) :
    add_particles self part false =
      ((reorganize self).1, some MergeError.capacityExceeded) := by
  unfold add_particles
  rw [if_neg (by simp), hmax]
  exact if_pos hover

/-- C2, counterexample.  The claim "a capacity-exceeded failure leaves
every per-particle field array of the receiver unchanged from its value
before the call" is false: `add_particles` reorganizes the receiver
before the capacity check, so the failed call returns with the receiver's
`state` array permuted. -/
theorem add_particles_unchanged_counterexample :
    (add_particles pW2r pW2d false).2 = some MergeError.capacityExceeded ∧
    (add_particles pW2r pW2d false).1.state ≠ pW2r.state := by decide

/-- C2 (amended).  If the number of alive donor particles exceeds the
receiver's free slots, `add_particles` fails before copying any donor
data, and the receiver is returned exactly as its own `reorganize()`
leaves it (so a receiver already in compacted order is unchanged, while a
non-compacted receiver's arrays are permuted by that compaction): the
failure is the capacity-exceeded error when the compacted receiver has at
least one valid slot, and the even earlier empty-maximum failure of
`np.max` over the empty identifier slice when it has none. -/
theorem add_particles_capacity_error (self part : Particles)
    (hpid : self.particle_id.length = self.capacity)
    (hst : self.state.length = self.capacity)
    (hover : self.capacity - (nActive self + nLost self) < nActive part) :
    (add_particles self part false).1 = (reorganize self).1 ∧
    (1 ≤ nActive self + nLost self →
      (add_particles self part false).2 = some MergeError.capacityExceeded) ∧
    (nActive self + nLost self = 0 →
      (add_particles self part false).2 = some MergeError.emptyMax) := by
  have hsum := countP_alive_add_lost_le self.state
  rw [hst] at hsum
  have hc := reorganize_counts self
  have h1 : (reorganize self).2.1 = nActive self := by rw [hc]
  have h2 : (reorganize self).2.2 = nLost self := by rw [hc]
  by_cases hne : 1 ≤ nActive self + nLost self
  · have hlen1 : (reorganize self).1.particle_id.length = self.capacity :=
      length_reorgArr self LAST_INVALID_STATE self.particle_id hpid hst
    have htake : (reorganize self).1.particle_id.take
        ((reorganize self).2.1 + (reorganize self).2.2) ≠ [] := by
      intro hnil
      have h3 := congrArg List.length hnil
      rw [List.length_take, hlen1] at h3
      simp only [List.length_nil] at h3
      rw [h1, h2] at h3
      have e0 : nActive self + nLost self ≤ self.capacity := hsum
      omega
    obtain ⟨m, hm⟩ := listMaxOpt_ne_none htake
    have hover2 : self.capacity - (reorganize self).2.1 - (reorganize self).2.2 <
        (part.state.map aliveP).count true := by
      have e1 : (reorganize self).2.1 = self.state.countP aliveP := h1
      have e2 : (reorganize self).2.2 = self.state.countP lostP := h2
      have e3 : (part.state.map aliveP).count true = part.state.countP aliveP :=
        count_true_map _ _
      have hover3 : self.capacity -
          (self.state.countP aliveP + self.state.countP lostP) <
          part.state.countP aliveP := hover
      omega
    have heq := add_particles_over_capacity self part m hm hover2
    exact ⟨by rw [heq], fun _ => by rw [heq], fun h0 => absurd h0 (by omega)⟩
  · have h0 : nActive self + nLost self = 0 := by omega
    have heq : add_particles self part false =
        ((reorganize self).1, some MergeError.emptyMax) := by
      apply add_particles_max_none
      rw [h1, h2, h0]
      simp [listMaxOpt]
    exact ⟨by rw [heq], fun hh => absurd hh hne, fun _ => by rw [heq]⟩

/-- Witness for the amended C2 at a concrete receiver/donor pair (a
receiver with valid slots, hitting the capacity-exceeded branch). -/
theorem add_particles_capacity_error_witness :
    (pW2r.particle_id.length = pW2r.capacity ∧ pW2r.state.length = pW2r.capacity ∧
      pW2r.capacity - (nActive pW2r + nLost pW2r) < nActive pW2d) ∧
    ((add_particles pW2r pW2d false).1 = (reorganize pW2r).1 ∧
      (1 ≤ nActive pW2r + nLost pW2r →
        (add_particles pW2r pW2d false).2 = some MergeError.capacityExceeded) ∧
      (nActive pW2r + nLost pW2r = 0 →
        (add_particles pW2r pW2d false).2 = some MergeError.emptyMax)) :=
  ⟨by decide,
    add_particles_capacity_error pW2r pW2d (by decide) (by decide) (by decide)⟩

/-- C10.  Merging into a receiver whose slots are all invalid (every state
equal to the sentinel) always fails: after compaction the valid prefix is
empty, so taking the maximum of the empty existing `particle_id` set
fails before any donor particle is copied. -/
theorem add_particles_empty_receiver_fails (self part : Particles)
    (hall : ∀ z ∈ self.state, z = LAST_INVALID_STATE) :
    add_particles self part false = ((reorganize self).1, some MergeError.emptyMax) := by
  have h0A : nActive self = 0 := by
    rw [nActive, List.countP_eq_zero]
    intro z hz
    rw [hall z hz, aliveP_sent]
    simp
  have h0L : nLost self = 0 := by
    rw [nLost, List.countP_eq_zero]
    intro z hz
    rw [hall z hz, lostP_sent]
    simp
  have hc := reorganize_counts self
  have h1 : (reorganize self).2.1 = 0 := by rw [hc]; exact h0A
  have h2 : (reorganize self).2.2 = 0 := by rw [hc]; exact h0L
  apply add_particles_max_none
  rw [h1, h2]
  simp [listMaxOpt]

/-- Witness for C10 at a concrete all-invalid receiver. -/
theorem add_particles_empty_receiver_witness :
    (∀ z ∈ pW10r.state, z = LAST_INVALID_STATE) ∧
    add_particles pW10r pW2d false =
      ((reorganize pW10r).1, some MergeError.emptyMax) :=
  ⟨by decide, add_particles_empty_receiver_fails pW10r pW2d (by decide)⟩

section TakeDropLemmas

variable {α : Type}

theorem take_len_append (l₁ l₂ : List α) : (l₁ ++ l₂).take l₁.length = l₁ := by
  induction l₁ with
  | nil => rfl
  | cons a as ih => simpa using ih

theorem drop_len_append (l₁ l₂ : List α) : (l₁ ++ l₂).drop l₁.length = l₂ := by
  induction l₁ with
  | nil => rfl
  | cons a as ih => simpa using ih

theorem drop_add_len_append (l₁ l₂ : List α) (j : ℕ) :
    (l₁ ++ l₂).drop (l₁.length + j) = l₂.drop j := by
  induction l₁ with
  | nil => simp
  | cons a as ih => simpa [Nat.succ_add] using ih

/-- Slice assignment over a decomposed list: writing a block of exactly the
middle segment's length at the offset of the first segment replaces the
middle segment. -/
theorem setRange_exact (pre mid post nv : List α) (i : ℕ)
    (hi : i = pre.length) (hmid : mid.length = nv.length) :
    setRange (pre ++ (mid ++ post)) i nv = pre ++ (nv ++ post) := by
  subst hi
  rw [setRange, take_len_append, ← hmid, drop_add_len_append, drop_len_append]
  simp [List.append_assoc]

end TakeDropLemmas

theorem validP_of_alive {z : ℤ} (h : aliveP z = true) : validP z = true := by
  simp only [aliveP, decide_eq_true_eq] at h
  simp only [validP, ne_eq, decide_eq_true_eq, LAST_INVALID_STATE]
  omega

theorem validP_of_lost {z : ℤ} (h : lostP z = true) : validP z = true := by
  simp only [lostP, Bool.and_eq_true, decide_eq_true_eq] at h
  simp only [validP, ne_eq, decide_eq_true_eq, LAST_INVALID_STATE] at h ⊢
  omega

theorem validP_sent : validP LAST_INVALID_STATE = false := by decide

theorem validP_eq_or {z : ℤ} (h : LAST_INVALID_STATE ≤ z) :
    validP z = (aliveP z || lostP z) := by
  simp only [validP, aliveP, lostP, ne_eq, LAST_INVALID_STATE] at h ⊢
  by_cases h0 : z = -999999999
  · subst h0; decide
  · have h1 : (0 < z) ∨ (z < 1 ∧ -999999999 < z) := by omega
    rcases h1 with h1 | h1
    · simp [h0, h1]
    · simp [h0, h1.1, h1.2]

/-- Gathering with the union mask is, up to permutation, gathering with the
alive mask followed by gathering with the lost mask. -/
theorem selectMask_or_perm {α : Type} (s : List ℤ) (l : List α) :
    (selectMask (s.map fun z => aliveP z || lostP z) l).Perm
      (selectMask (s.map aliveP) l ++ selectMask (s.map lostP) l) := by
  induction s generalizing l with
  | nil => cases l <;> simp [selectMask]
  | cons z s2 ih =>
      cases l with
      | nil => simp [selectMask_nil]
      | cons a l2 =>
          simp only [List.map_cons, selectMask_cons]
          cases hA : aliveP z with
          | true =>
              rw [lostP_of_alive hA]
              simpa using (ih l2).cons a
          | false =>
              cases hLo : lostP z with
              | true =>
                  simp only [Bool.or_false, Bool.false_or, if_true, if_false]
                  refine ((ih l2).cons a).trans ?_
                  exact List.perm_middle.symm
              | false => simpa using ih l2

theorem length_newIds (m : ℤ) (n : ℕ) : (newIds m n).length = n := by
  simp [newIds]

theorem nodup_newIds (m : ℤ) (n : ℕ) : (newIds m n).Nodup := by
  have h1 : Function.Injective (fun (j : ℕ) => m + 1 + (j : ℤ)) := by
    intro a b hab
    simp only [add_right_inj] at hab
    exact_mod_cast hab
  exact (List.nodup_range n).map h1

theorem mem_newIds {m x : ℤ} {n : ℕ} (h : x ∈ newIds m n) : m + 1 ≤ x := by
  simp only [newIds, List.mem_map, List.mem_range] at h
  obtain ⟨j, _, rfl⟩ := h
  have : (0 : ℤ) ≤ (j : ℤ) := Int.natCast_nonneg j
  omega

/-- Third-pass partition lemma: reorganizing an array laid out as
alive-block, lost-block, alive-block, sentinel-tail gathers the two alive
blocks in front, then the lost block, then the sentinel fill.  This is the
shape `add_particles` produces just before its final `reorganize()`. -/
theorem reorgArr_four {α : Type} (sA sL sC : List ℤ) (k2 cap : ℕ)
    (vA vL vC : List α) (sent : α)
    (hA : ∀ z ∈ sA, aliveP z = true) (hL : ∀ z ∈ sL, lostP z = true)
    (hC : ∀ z ∈ sC, aliveP z = true)
    (hlA : vA.length = sA.length) (hlL : vL.length = sL.length)
    (hlC : vC.length = sC.length) :
    reorgArr
      ((sA ++ (sL ++ (sC ++ List.replicate k2 LAST_INVALID_STATE))).map aliveP)
      ((sA ++ (sL ++ (sC ++ List.replicate k2 LAST_INVALID_STATE))).map lostP)
      (((sA ++ (sL ++ (sC ++ List.replicate k2 LAST_INVALID_STATE))).map aliveP).count true)
      (((sA ++ (sL ++ (sC ++ List.replicate k2 LAST_INVALID_STATE))).map lostP).count true)
      sent cap (vA ++ (vL ++ (vC ++ List.replicate k2 sent)))
    = vA ++ (vC ++ (vL ++
        List.replicate (cap - (sA.length + sC.length + sL.length)) sent)) := by
  have hmA : (sA ++ (sL ++ (sC ++ List.replicate k2 LAST_INVALID_STATE))).map aliveP =
      List.replicate sA.length true ++ (List.replicate sL.length false ++
        (List.replicate sC.length true ++ List.replicate k2 false)) := by
    rw [List.map_append, List.map_append, List.map_append,
      map_eq_replicate_true hA,
      map_eq_replicate_false (fun z hz => aliveP_of_lost (hL z hz)),
      map_eq_replicate_true hC, List.map_replicate, aliveP_sent]
  have hmL : (sA ++ (sL ++ (sC ++ List.replicate k2 LAST_INVALID_STATE))).map lostP =
      List.replicate sA.length false ++ (List.replicate sL.length true ++
        (List.replicate sC.length false ++ List.replicate k2 false)) := by
    rw [List.map_append, List.map_append, List.map_append,
      map_eq_replicate_false (fun z hz => lostP_of_alive (hA z hz)),
      map_eq_replicate_true hL,
      map_eq_replicate_false (fun z hz => lostP_of_alive (hC z hz)),
      List.map_replicate, lostP_sent]
  have hcountA :
      (((sA ++ (sL ++ (sC ++ List.replicate k2 LAST_INVALID_STATE))).map aliveP).count true) =
      sA.length + sC.length := by
    rw [hmA]
    simp [List.count_append, List.count_replicate]
  have hcountL :
      (((sA ++ (sL ++ (sC ++ List.replicate k2 LAST_INVALID_STATE))).map lostP).count true) =
      sL.length := by
    rw [hmL]
    simp [List.count_append, List.count_replicate]
  have eA : selectMask
      (List.replicate sA.length true ++ (List.replicate sL.length false ++
        (List.replicate sC.length true ++ List.replicate k2 false)))
      (vA ++ (vL ++ (vC ++ List.replicate k2 sent))) = vA ++ vC := by
    rw [selectMask_append _ _ _ _ (by simp [hlA])]
    rw [selectMask_replicate_true _ _ hlA]
    rw [selectMask_append _ _ _ _ (by simp [hlL])]
    rw [selectMask_replicate_false]
    rw [selectMask_append _ _ _ _ (by simp [hlC])]
    rw [selectMask_replicate_true _ _ hlC, selectMask_replicate_false]
    simp
  have eL : selectMask
      (List.replicate sA.length false ++ (List.replicate sL.length true ++
        (List.replicate sC.length false ++ List.replicate k2 false)))
      (vA ++ (vL ++ (vC ++ List.replicate k2 sent))) = vL := by
    rw [selectMask_append _ _ _ _ (by simp [hlA])]
    rw [selectMask_replicate_false]
    rw [selectMask_append _ _ _ _ (by simp [hlL])]
    rw [selectMask_replicate_true _ _ hlL]
    rw [selectMask_append _ _ _ _ (by simp [hlC])]
    rw [selectMask_replicate_false, selectMask_replicate_false]
    simp
  rw [reorgArr, hcountA, hcountL, hmA, hmL, eA, eL]
  simp [List.append_assoc]

/-- One field pass of `reorganize`, written in right-associated form. -/
theorem reorgArr_eq_assoc {α : Type} (maskA maskL : List Bool) (nA2 nL2 : ℕ)
    (sent : α) (cap : ℕ) (vv : List α) :
    reorgArr maskA maskL nA2 nL2 sent cap vv =
      selectMask maskA vv ++ (selectMask maskL vv ++
        List.replicate (cap - (nA2 + nL2)) sent) := by
  rw [reorgArr, List.append_assoc]

/-- The copy loop's slice assignment writes the donor block right after the
valid prefix, consuming part of the sentinel tail. -/
theorem copy_step {α : Type} (Av Lv Cv : List α) (sent : α) (k i : ℕ)
    (hi : i = Av.length + Lv.length) (hk : Cv.length ≤ k) :
    setRange (Av ++ (Lv ++ List.replicate k sent)) i Cv =
      Av ++ (Lv ++ (Cv ++ List.replicate (k - Cv.length) sent)) := by
  subst hi
  have hsplit : List.replicate k sent =
      List.replicate Cv.length sent ++ List.replicate (k - Cv.length) sent := by
    rw [← List.replicate_add]
    congr 1
    omega
  rw [hsplit, ← List.append_assoc Av Lv]
  rw [setRange_exact _ _ _ _ _ (by simp) (by simp)]
  rw [List.append_assoc]

/-- Overwriting the block just copied (the fresh-identifier assignment)
replaces it, leaving everything else alone. -/
theorem overwrite_step {α : Type} (Av Lv Cv nv rest : List α) (i : ℕ)
    (hi : i = Av.length + Lv.length) (hlen : Cv.length = nv.length) :
    setRange (Av ++ (Lv ++ (Cv ++ rest))) i nv = Av ++ (Lv ++ (nv ++ rest)) := by
  subst hi
  rw [← List.append_assoc Av Lv]
  rw [setRange_exact _ _ _ _ _ (by simp) hlen]
  rw [List.append_assoc]

/-- Dispatch lemma: on the success path `add_particles` returns the final
compaction of the merged receiver. -/
theorem add_particles_success_eq (self part : Particles) (m : ℤ)
    (hmax : listMaxOpt ((reorganize self).1.particle_id.take
      ((reorganize self).2.1 + (reorganize self).2.2)) = some m)
    (hnotover : ¬(self.capacity - (reorganize self).2.1 - (reorganize self).2.2 <
      (part.state.map aliveP).count true))
    (hclose : (isclose14 (reorganize self).1.q0 part.q0 &&
      isclose14 (reorganize self).1.mass0 part.mass0) = true) :
    add_particles self part false = ((reorganize (merged self part m)).1, none) := by
  unfold add_particles
  rw [if_neg (by simp), hmax]
  simp only [hnotover, hclose, if_true, if_false, ite_true, ite_false]

/-- Full decomposition of a successful `add_particles` call: the maximum
identifier is taken over the compacted valid prefix, the call succeeds,
and the resulting `state`, `particle_id` and `x` arrays are explicit
concatenations of the receiver's alive block, the copied donor block
(with fresh identifiers) and the receiver's lost block, followed by the
sentinel fill. -/
theorem add_particles_success_decomp (self part : Particles)
    (hpid : self.particle_id.length = self.capacity)
    (hst : self.state.length = self.capacity)
    (hx : self.x.length = self.capacity)
    (hppid : part.particle_id.length = part.state.length)
    (hpx : part.x.length = part.state.length)
    (hne : 1 ≤ nActive self + nLost self)
    (hfit : nActive part ≤ self.capacity - (nActive self + nLost self))
    (hq : isclose14 self.q0 part.q0 = true)
    (hmass : isclose14 self.mass0 part.mass0 = true) :
    ∃ m, listMaxOpt ((reorganize self).1.particle_id.take
        (nActive self + nLost self)) = some m ∧
      (reorganize self).1.particle_id.take (nActive self + nLost self) =
        selectMask (self.state.map aliveP) self.particle_id ++
          selectMask (self.state.map lostP) self.particle_id ∧
      (add_particles self part false).2 = none ∧
      (add_particles self part false).1.state =
        self.state.filter aliveP ++ (part.state.filter aliveP ++
          (self.state.filter lostP ++ List.replicate
            (self.capacity - (nActive self + nActive part + nLost self))
            LAST_INVALID_STATE)) ∧
      (add_particles self part false).1.particle_id =
        selectMask (self.state.map aliveP) self.particle_id ++
          (newIds m (nActive part) ++
          (selectMask (self.state.map lostP) self.particle_id ++ List.replicate
            (self.capacity - (nActive self + nActive part + nLost self))
            LAST_INVALID_STATE)) ∧
      (add_particles self part false).1.x =
        selectMask (self.state.map aliveP) self.x ++
          (selectMask (part.state.map aliveP) part.x ++
          (selectMask (self.state.map lostP) self.x ++ List.replicate
            (self.capacity - (nActive self + nActive part + nLost self))
            rSent)) := by
  have h1 : (reorganize self).2.1 = nActive self := by rw [reorganize_counts]
  have h2 : (reorganize self).2.2 = nLost self := by rw [reorganize_counts]
  have hsum : nActive self + nLost self ≤ self.capacity := by
    have h := countP_alive_add_lost_le self.state
    rw [hst] at h
    exact h
  have hcA : (self.state.map aliveP).count true = nActive self := count_true_map _ _
  have hcL : (self.state.map lostP).count true = nLost self := count_true_map _ _
  have hcC : (part.state.map aliveP).count true = nActive part := count_true_map _ _
  have lAp : (selectMask (self.state.map aliveP) self.particle_id).length =
      nActive self := by
    rw [length_selectMask _ _ (by rw [List.length_map, hst, hpid]), hcA]
  have lLp : (selectMask (self.state.map lostP) self.particle_id).length =
      nLost self := by
    rw [length_selectMask _ _ (by rw [List.length_map, hst, hpid]), hcL]
  have lAx : (selectMask (self.state.map aliveP) self.x).length = nActive self := by
    rw [length_selectMask _ _ (by rw [List.length_map, hst, hx]), hcA]
  have lLx : (selectMask (self.state.map lostP) self.x).length = nLost self := by
    rw [length_selectMask _ _ (by rw [List.length_map, hst, hx]), hcL]
  have lAs : (self.state.filter aliveP).length = nActive self :=
    length_filter_aliveP _
  have lLs : (self.state.filter lostP).length = nLost self := length_filter_lostP _
  have lCs : (part.state.filter aliveP).length = nActive part :=
    length_filter_aliveP _
  have lCp : (selectMask (part.state.map aliveP) part.particle_id).length =
      nActive part := by
    rw [length_selectMask _ _ (by rw [List.length_map, hppid]), hcC]
  have lCx : (selectMask (part.state.map aliveP) part.x).length = nActive part := by
    rw [length_selectMask _ _ (by rw [List.length_map, hpx]), hcC]
  have hpid1 : (reorganize self).1.particle_id =
      selectMask (self.state.map aliveP) self.particle_id ++
        (selectMask (self.state.map lostP) self.particle_id ++
          List.replicate (self.capacity - (nActive self + nLost self))
            LAST_INVALID_STATE) := by
    show reorgArr (self.state.map aliveP) (self.state.map lostP)
        ((self.state.map aliveP).count true) ((self.state.map lostP).count true)
        LAST_INVALID_STATE self.capacity self.particle_id = _
    rw [reorgArr_eq_assoc, hcA, hcL]
  have hx1 : (reorganize self).1.x =
      selectMask (self.state.map aliveP) self.x ++
        (selectMask (self.state.map lostP) self.x ++
          List.replicate (self.capacity - (nActive self + nLost self)) rSent) := by
    show reorgArr (self.state.map aliveP) (self.state.map lostP)
        ((self.state.map aliveP).count true) ((self.state.map lostP).count true)
        rSent self.capacity self.x = _
    rw [reorgArr_eq_assoc, hcA, hcL]
  have hstate1 : (reorganize self).1.state =
      self.state.filter aliveP ++ (self.state.filter lostP ++
        List.replicate (self.capacity - (nActive self + nLost self))
          LAST_INVALID_STATE) := by
    rw [reorganize_state_eq, List.append_assoc]
  have htake : (reorganize self).1.particle_id.take (nActive self + nLost self) =
      selectMask (self.state.map aliveP) self.particle_id ++
        selectMask (self.state.map lostP) self.particle_id := by
    rw [hpid1, ← List.append_assoc]
    have hlen : nActive self + nLost self =
        (selectMask (self.state.map aliveP) self.particle_id ++
          selectMask (self.state.map lostP) self.particle_id).length := by
      rw [List.length_append, lAp, lLp]
    rw [hlen, take_len_append]
  have hnonempty : (reorganize self).1.particle_id.take
      (nActive self + nLost self) ≠ [] := by
    rw [htake]
    intro hnil
    have hl := congrArg List.length hnil
    rw [List.length_append, lAp, lLp] at hl
    simp only [List.length_nil] at hl
    omega
  obtain ⟨m, hm⟩ := listMaxOpt_ne_none hnonempty
  refine ⟨m, hm, htake, ?_⟩
  have hm2 : listMaxOpt ((reorganize self).1.particle_id.take
      ((reorganize self).2.1 + (reorganize self).2.2)) = some m := by
    rw [h1, h2]; exact hm
  have hnotover : ¬(self.capacity - (reorganize self).2.1 - (reorganize self).2.2 <
      (part.state.map aliveP).count true) := by
    rw [h1, h2, hcC]
    omega
  have hclose : (isclose14 (reorganize self).1.q0 part.q0 &&
      isclose14 (reorganize self).1.mass0 part.mass0) = true := by
    show (isclose14 self.q0 part.q0 && isclose14 self.mass0 part.mass0) = true
    rw [hq, hmass]
    rfl
  have hcall := add_particles_success_eq self part m hm2 hnotover hclose
  have hAs2 : ∀ z ∈ self.state.filter aliveP, aliveP z = true := fun z hz =>
    List.of_mem_filter hz
  have hLs2 : ∀ z ∈ self.state.filter lostP, lostP z = true := fun z hz =>
    List.of_mem_filter hz
  have hCs2 : ∀ z ∈ part.state.filter aliveP, aliveP z = true := fun z hz =>
    List.of_mem_filter hz
  have hstate2 : (merged self part m).state =
      self.state.filter aliveP ++ (self.state.filter lostP ++
        (part.state.filter aliveP ++ List.replicate
          (self.capacity - (nActive self + nLost self) - nActive part)
          LAST_INVALID_STATE)) := by
    show setRange (reorganize self).1.state
        ((reorganize self).2.1 + (reorganize self).2.2)
        (selectMask (part.state.map aliveP) part.state) = _
    rw [selectMask_map_self, hstate1, h1, h2]
    rw [copy_step _ _ _ _ _ _ (by rw [lAs, lLs]) (by rw [lCs]; exact hfit)]
    rw [lCs]
  have hpid3 : (merged self part m).particle_id =
      selectMask (self.state.map aliveP) self.particle_id ++
        (selectMask (self.state.map lostP) self.particle_id ++
        (newIds m (nActive part) ++ List.replicate
          (self.capacity - (nActive self + nLost self) - nActive part)
          LAST_INVALID_STATE)) := by
    show setRange (setRange (reorganize self).1.particle_id
        ((reorganize self).2.1 + (reorganize self).2.2)
        (selectMask (part.state.map aliveP) part.particle_id))
        ((reorganize self).2.1 + (reorganize self).2.2)
        (newIds m ((part.state.map aliveP).count true)) = _
    rw [hcC, hpid1, h1, h2]
    rw [copy_step _ _ _ _ _ _ (by rw [lAp, lLp]) (by rw [lCp]; exact hfit)]
    rw [overwrite_step _ _ _ _ _ _ (by rw [lAp, lLp])
      (by rw [lCp, length_newIds])]
    rw [lCp]
  have hx3 : (merged self part m).x =
      selectMask (self.state.map aliveP) self.x ++
        (selectMask (self.state.map lostP) self.x ++
        (selectMask (part.state.map aliveP) part.x ++ List.replicate
          (self.capacity - (nActive self + nLost self) - nActive part)
          rSent)) := by
    show setRange (reorganize self).1.x
        ((reorganize self).2.1 + (reorganize self).2.2)
        (selectMask (part.state.map aliveP) part.x) = _
    rw [hx1, h1, h2]
    rw [copy_step _ _ _ _ _ _ (by rw [lAx, lLx]) (by rw [lCx]; exact hfit)]
    rw [lCx]
  have hresS : (reorganize (merged self part m)).1.state =
      self.state.filter aliveP ++ (part.state.filter aliveP ++
        (self.state.filter lostP ++ List.replicate
          (self.capacity - (nActive self + nActive part + nLost self))
          LAST_INVALID_STATE)) := by
    show reorgArr ((merged self part m).state.map aliveP)
        ((merged self part m).state.map lostP)
        (((merged self part m).state.map aliveP).count true)
        (((merged self part m).state.map lostP).count true)
        LAST_INVALID_STATE self.capacity (merged self part m).state = _
    rw [hstate2]
    have hfour := reorgArr_four (self.state.filter aliveP)
      (self.state.filter lostP) (part.state.filter aliveP)
      (self.capacity - (nActive self + nLost self) - nActive part) self.capacity
      (self.state.filter aliveP) (self.state.filter lostP)
      (part.state.filter aliveP) LAST_INVALID_STATE hAs2 hLs2 hCs2 rfl rfl rfl
    rw [lAs, lLs, lCs] at hfour
    exact hfour
  have hresP : (reorganize (merged self part m)).1.particle_id =
      selectMask (self.state.map aliveP) self.particle_id ++
        (newIds m (nActive part) ++
        (selectMask (self.state.map lostP) self.particle_id ++ List.replicate
          (self.capacity - (nActive self + nActive part + nLost self))
          LAST_INVALID_STATE)) := by
    show reorgArr ((merged self part m).state.map aliveP)
        ((merged self part m).state.map lostP)
        (((merged self part m).state.map aliveP).count true)
        (((merged self part m).state.map lostP).count true)
        LAST_INVALID_STATE self.capacity (merged self part m).particle_id = _
    rw [hstate2, hpid3]
    have hfour := reorgArr_four (self.state.filter aliveP)
      (self.state.filter lostP) (part.state.filter aliveP)
      (self.capacity - (nActive self + nLost self) - nActive part) self.capacity
      (selectMask (self.state.map aliveP) self.particle_id)
      (selectMask (self.state.map lostP) self.particle_id)
      (newIds m (nActive part)) LAST_INVALID_STATE hAs2 hLs2 hCs2
      (by rw [lAp, lAs]) (by rw [lLp, lLs]) (by rw [length_newIds, lCs])
    rw [lAs, lLs, lCs] at hfour
    exact hfour
  have hresX : (reorganize (merged self part m)).1.x =
      selectMask (self.state.map aliveP) self.x ++
        (selectMask (part.state.map aliveP) part.x ++
        (selectMask (self.state.map lostP) self.x ++ List.replicate
          (self.capacity - (nActive self + nActive part + nLost self))
          rSent)) := by
    show reorgArr ((merged self part m).state.map aliveP)
        ((merged self part m).state.map lostP)
        (((merged self part m).state.map aliveP).count true)
        (((merged self part m).state.map lostP).count true)
        rSent self.capacity (merged self part m).x = _
    rw [hstate2, hx3]
    have hfour := reorgArr_four (self.state.filter aliveP)
      (self.state.filter lostP) (part.state.filter aliveP)
      (self.capacity - (nActive self + nLost self) - nActive part) self.capacity
      (selectMask (self.state.map aliveP) self.x)
      (selectMask (self.state.map lostP) self.x)
      (selectMask (part.state.map aliveP) part.x) rSent hAs2 hLs2 hCs2
      (by rw [lAx, lAs]) (by rw [lLx, lLs]) (by rw [lCx, lCs])
    rw [lAs, lLs, lCs] at hfour
    exact hfour
  refine ⟨by rw [hcall], ?_, ?_, ?_⟩
  · rw [hcall]
    exact hresS
  · rw [hcall]
    exact hresP
  · rw [hcall]
    exact hresX

/-- C5.  After a successful `add_particles(receiver, donor)`: the
identifiers among the receiver's non-sentinel slots are pairwise
distinct; the identifiers assigned to the copied donor particles are the
contiguous run `max_id+1, ..., max_id+n_copy` (where `max_id` is the
maximum receiver identifier over the valid prefix of the compacted
receiver), sitting right after the original alive block in donor order;
every newly assigned identifier is strictly greater than every
pre-existing receiver identifier; and the copied slots carry the donor's
alive field values in donor order (witnessed here on the `x` array). -/
theorem add_particles_id_uniqueness (self part : Particles)
    (hpid : self.particle_id.length = self.capacity)
    (hst : self.state.length = self.capacity)
    (hx : self.x.length = self.capacity)
    (hppid : part.particle_id.length = part.state.length)
    (hpx : part.x.length = part.state.length)
    (hge : ∀ z ∈ self.state, LAST_INVALID_STATE ≤ z)
    (hnodup : (validIds self).Nodup)
    (hne : 1 ≤ nActive self + nLost self)
    (hfit : nActive part ≤ self.capacity - (nActive self + nLost self))
    (hq : isclose14 self.q0 part.q0 = true)
    (hmass : isclose14 self.mass0 part.mass0 = true) :
    (add_particles self part false).2 = none ∧
    (validIds (add_particles self part false).1).Nodup ∧
    (∃ m, listMaxOpt ((reorganize self).1.particle_id.take
        (nActive self + nLost self)) = some m ∧
      ((add_particles self part false).1.particle_id.drop
        (nActive self)).take (nActive part) = newIds m (nActive part) ∧
      (∀ a ∈ validIds self, ∀ b ∈ newIds m (nActive part), a < b)) ∧
    ((add_particles self part false).1.x.drop (nActive self)).take (nActive part) =
      selectMask (part.state.map aliveP) part.x := by
  obtain ⟨m, hm, htake, hsucc, hS, hP, hX⟩ :=
    add_particles_success_decomp self part hpid hst hx hppid hpx hne hfit hq hmass
  have hcA : (self.state.map aliveP).count true = nActive self := count_true_map _ _
  have hcL : (self.state.map lostP).count true = nLost self := count_true_map _ _
  have hcC : (part.state.map aliveP).count true = nActive part := count_true_map _ _
  have lAp : (selectMask (self.state.map aliveP) self.particle_id).length =
      nActive self := by
    rw [length_selectMask _ _ (by rw [List.length_map, hst, hpid]), hcA]
  have lLp : (selectMask (self.state.map lostP) self.particle_id).length =
      nLost self := by
    rw [length_selectMask _ _ (by rw [List.length_map, hst, hpid]), hcL]
  have lAx : (selectMask (self.state.map aliveP) self.x).length = nActive self := by
    rw [length_selectMask _ _ (by rw [List.length_map, hst, hx]), hcA]
  have lAs : (self.state.filter aliveP).length = nActive self :=
    length_filter_aliveP _
  have lLs : (self.state.filter lostP).length = nLost self := length_filter_lostP _
  have lCs : (part.state.filter aliveP).length = nActive part :=
    length_filter_aliveP _
  have lCx : (selectMask (part.state.map aliveP) part.x).length = nActive part := by
    rw [length_selectMask _ _ (by rw [List.length_map, hpx]), hcC]
  have hmV : (self.state.filter aliveP ++ (part.state.filter aliveP ++
      (self.state.filter lostP ++ List.replicate
        (self.capacity - (nActive self + nActive part + nLost self))
        LAST_INVALID_STATE))).map validP =
      List.replicate (self.state.filter aliveP).length true ++
        (List.replicate (part.state.filter aliveP).length true ++
          (List.replicate (self.state.filter lostP).length true ++
            List.replicate
              (self.capacity - (nActive self + nActive part + nLost self))
              false)) := by
    rw [List.map_append, List.map_append, List.map_append,
      map_eq_replicate_true
        (fun z hz => validP_of_alive (List.of_mem_filter hz)),
      map_eq_replicate_true
        (fun z hz => validP_of_alive (List.of_mem_filter hz)),
      map_eq_replicate_true
        (fun z hz => validP_of_lost (List.of_mem_filter hz)),
      List.map_replicate, validP_sent]
  have hvalid : validIds (add_particles self part false).1 =
      selectMask (self.state.map aliveP) self.particle_id ++
        (newIds m (nActive part) ++
          selectMask (self.state.map lostP) self.particle_id) := by
    rw [validIds, hS, hP, hmV]
    rw [selectMask_append _ _ _ _ (by simp [lAs, lAp])]
    rw [selectMask_replicate_true _ _ (by rw [lAp, lAs])]
    rw [selectMask_append _ _ _ _ (by simp [lCs, length_newIds])]
    rw [selectMask_replicate_true _ _ (by rw [length_newIds, lCs])]
    rw [selectMask_append _ _ _ _ (by simp [lLs, lLp])]
    rw [selectMask_replicate_true _ _ (by rw [lLp, lLs])]
    rw [selectMask_replicate_false]
    simp
  have hmapeq : self.state.map validP =
      self.state.map (fun z => aliveP z || lostP z) :=
    List.map_congr_left (fun z hz => validP_eq_or (hge z hz))
  have hALperm := selectMask_or_perm self.state self.particle_id
  have hALnodup : (selectMask (self.state.map aliveP) self.particle_id ++
      selectMask (self.state.map lostP) self.particle_id).Nodup := by
    have h0 := hnodup
    rw [validIds, hmapeq] at h0
    exact hALperm.nodup h0
  have hm3 : listMaxOpt (selectMask (self.state.map aliveP) self.particle_id ++
      selectMask (self.state.map lostP) self.particle_id) = some m := by
    rw [← htake]; exact hm
  have hbound := le_of_listMaxOpt hm3
  have hdisj : List.Disjoint
      (selectMask (self.state.map aliveP) self.particle_id ++
        selectMask (self.state.map lostP) self.particle_id)
      (newIds m (nActive part)) := by
    intro a ha hb
    have hb2 := mem_newIds hb
    have ha2 := hbound a ha
    omega
  have hcat : ((selectMask (self.state.map aliveP) self.particle_id ++
      selectMask (self.state.map lostP) self.particle_id) ++
      newIds m (nActive part)).Nodup :=
    List.Nodup.append hALnodup (nodup_newIds _ _) hdisj
  have hperm2 : (selectMask (self.state.map aliveP) self.particle_id ++
      (newIds m (nActive part) ++
        selectMask (self.state.map lostP) self.particle_id)).Perm
      ((selectMask (self.state.map aliveP) self.particle_id ++
        selectMask (self.state.map lostP) self.particle_id) ++
        newIds m (nActive part)) := by
    refine (List.Perm.append_left _ List.perm_append_comm).trans ?_
    rw [List.append_assoc]
  have hresNodup : (validIds (add_particles self part false).1).Nodup := by
    rw [hvalid]
    exact hperm2.symm.nodup hcat
  have hrun : ((add_particles self part false).1.particle_id.drop
      (nActive self)).take (nActive part) = newIds m (nActive part) := by
    rw [hP]
    have hd := drop_len_append
      (selectMask (self.state.map aliveP) self.particle_id)
      (newIds m (nActive part) ++
        (selectMask (self.state.map lostP) self.particle_id ++ List.replicate
          (self.capacity - (nActive self + nActive part + nLost self))
          LAST_INVALID_STATE))
    rw [lAp] at hd
    rw [hd]
    have ht := take_len_append (newIds m (nActive part))
      (selectMask (self.state.map lostP) self.particle_id ++ List.replicate
        (self.capacity - (nActive self + nActive part + nLost self))
        LAST_INVALID_STATE)
    rw [length_newIds] at ht
    exact ht
  have horder : ∀ a ∈ validIds self, ∀ b ∈ newIds m (nActive part), a < b := by
    intro a ha b hb
    have ha2 : a ∈ selectMask (self.state.map aliveP) self.particle_id ++
        selectMask (self.state.map lostP) self.particle_id := by
      rw [validIds, hmapeq] at ha
      exact hALperm.mem_iff.mp ha
    have h3 := hbound a ha2
    have h4 := mem_newIds hb
    omega
  have hxcopy : ((add_particles self part false).1.x.drop
      (nActive self)).take (nActive part) =
      selectMask (part.state.map aliveP) part.x := by
    rw [hX]
    have hd := drop_len_append (selectMask (self.state.map aliveP) self.x)
      (selectMask (part.state.map aliveP) part.x ++
        (selectMask (self.state.map lostP) self.x ++ List.replicate
          (self.capacity - (nActive self + nActive part + nLost self)) rSent))
    rw [lAx] at hd
    rw [hd]
    have ht := take_len_append (selectMask (part.state.map aliveP) part.x)
      (selectMask (self.state.map lostP) self.x ++ List.replicate
        (self.capacity - (nActive self + nActive part + nLost self)) rSent)
    rw [lCx] at ht
    exact ht
  exact ⟨hsucc, hresNodup, ⟨m, hm, hrun, horder⟩, hxcopy⟩

/-- Witness for C5 at a concrete receiver/donor pair. -/
theorem add_particles_id_uniqueness_witness :
    (pW5r.particle_id.length = pW5r.capacity ∧
      pW5r.state.length = pW5r.capacity ∧
      pW5r.x.length = pW5r.capacity ∧
      pW5d.particle_id.length = pW5d.state.length ∧
      pW5d.x.length = pW5d.state.length ∧
      (∀ z ∈ pW5r.state, LAST_INVALID_STATE ≤ z) ∧
      (validIds pW5r).Nodup ∧
      1 ≤ nActive pW5r + nLost pW5r ∧
      nActive pW5d ≤ pW5r.capacity - (nActive pW5r + nLost pW5r) ∧
      isclose14 pW5r.q0 pW5d.q0 = true ∧
      isclose14 pW5r.mass0 pW5d.mass0 = true) ∧
    ((add_particles pW5r pW5d false).2 = none ∧
    (validIds (add_particles pW5r pW5d false).1).Nodup ∧
    (∃ m, listMaxOpt ((reorganize pW5r).1.particle_id.take
        (nActive pW5r + nLost pW5r)) = some m ∧
      ((add_particles pW5r pW5d false).1.particle_id.drop
        (nActive pW5r)).take (nActive pW5d) = newIds m (nActive pW5d) ∧
      (∀ a ∈ validIds pW5r, ∀ b ∈ newIds m (nActive pW5d), a < b)) ∧
    ((add_particles pW5r pW5d false).1.x.drop
      (nActive pW5r)).take (nActive pW5d) =
      selectMask (pW5d.state.map aliveP) pW5d.x) :=
  ⟨⟨by decide, by decide, by decide, by decide, by decide, by decide, by decide,
      by decide, by decide, by norm_num [isclose14, absQ, pW5r, pW5d, mkP],
      by norm_num [isclose14, absQ, pW5r, pW5d, mkP]⟩,
    add_particles_id_uniqueness pW5r pW5d (by decide) (by decide) (by decide)
      (by decide) (by decide) (by decide) (by decide) (by decide) (by decide)
      (by norm_num [isclose14, absQ, pW5r, pW5d, mkP])
      (by norm_num [isclose14, absQ, pW5r, pW5d, mkP])⟩

/-- C6.  `update_delta` overwrites exactly the four dependent longitudinal
fields `delta`, `rvv`, `rpp`, `psigma`; every other field of the
ensemble — `zeta`, the transverse coordinates, the reference fields and
all bookkeeping arrays — is unchanged. -/
theorem update_delta_only_longitudinal (p : Particles) (nd : ℝ) :
    (update_delta p nd).delta = p.delta.map (fun _ => nd) ∧
    (update_delta p nd).rvv = p.beta0.map (fun b => ud_rvv b nd) ∧
    (update_delta p nd).rpp = p.rpp.map (fun _ => ud_rpp nd) ∧
    (update_delta p nd).psigma = p.beta0.map (fun b => ud_psigma b nd) ∧
    (update_delta p nd).zeta = p.zeta ∧
    (update_delta p nd).x = p.x ∧
    (update_delta p nd).y = p.y ∧
    (update_delta p nd).px = p.px ∧
    (update_delta p nd).py = p.py ∧
    (update_delta p nd).s = p.s ∧
    (update_delta p nd).p0c = p.p0c ∧
    (update_delta p nd).beta0 = p.beta0 ∧
    (update_delta p nd).gamma0 = p.gamma0 ∧
    (update_delta p nd).chi = p.chi ∧
    (update_delta p nd).charge_ratio = p.charge_ratio ∧
    (update_delta p nd).weight = p.weight ∧
    (update_delta p nd).particle_id = p.particle_id ∧
    (update_delta p nd).at_element = p.at_element ∧
    (update_delta p nd).at_turn = p.at_turn ∧
    (update_delta p nd).state = p.state ∧
    (update_delta p nd).parent_particle_id = p.parent_particle_id ∧
    (update_delta p nd).rng_s1 = p.rng_s1 ∧
    (update_delta p nd).rng_s2 = p.rng_s2 ∧
    (update_delta p nd).rng_s3 = p.rng_s3 ∧
    (update_delta p nd).rng_s4 = p.rng_s4 ∧
    (update_delta p nd).q0 = p.q0 ∧
    (update_delta p nd).mass0 = p.mass0 ∧
    (update_delta p nd).capacity = p.capacity :=
  ⟨rfl, rfl, rfl, rfl, rfl, rfl, rfl, rfl, rfl, rfl, rfl, rfl, rfl, rfl,
    rfl, rfl, rfl, rfl, rfl, rfl, rfl, rfl, rfl, rfl, rfl, rfl, rfl, rfl⟩

/-- C3, counterexample.  At `beta0 = 4/11`, `delta = 1` (both inside the
claimed domain) the claimed identity `rvv*rpp*(1+delta) = 1 (within
1e-12)` fails: the product equals `22/13`.  The identity that does hold
is `rpp*(1+delta) = 1`; `rvv*rpp*(1+delta)` equals
`(1+delta)/(1+ptau_beta0)`, which is `1` only ultra-relativistically. -/
theorem update_delta_rvv_identity_counterexample :
    ((-1 : ℝ) < 1 ∧ (1 : ℝ) < 10 ∧ (0 : ℝ) < 4 / 11 ∧ (4 / 11 : ℝ) < 1) ∧
    ¬ (|ud_rvv (4 / 11) 1 * ud_rpp 1 * (1 + 1) - 1| ≤ 1 / 10 ^ 12) := by
  constructor
  · norm_num
  · have harg : (1 : ℝ) * (4 / 11) * ((1 : ℝ) * (4 / 11)) +
        2 * ((1 : ℝ) * (4 / 11)) * (4 / 11) + 1 = (13 / 11) ^ 2 := by
      norm_num
    have hsq : Real.sqrt ((1 : ℝ) * (4 / 11) * ((1 : ℝ) * (4 / 11)) +
        2 * ((1 : ℝ) * (4 / 11)) * (4 / 11) + 1) = 13 / 11 := by
      rw [harg, Real.sqrt_sq (by norm_num)]
    have hptau : ud_ptau_beta0 (4 / 11) 1 = 2 / 11 := by
      rw [ud_ptau_beta0, hsq]
      norm_num
    rw [ud_rvv, ud_rpp, hptau, not_le]
    have hval : (1 + (1 : ℝ)) / (1 + 2 / 11) * (1 / (1 + 1)) * (1 + 1) - 1 =
        9 / 13 := by norm_num
    rw [hval, abs_of_nonneg (by norm_num : (0 : ℝ) ≤ 9 / 13)]
    norm_num

/-- C3 (amended).  For `delta` in `(-1, 10)` and `beta0` in `(0, 1)`:
`update_delta(delta)` followed by reading back `delta` returns exactly
the written value, and the exact algebraic identity relating the
dependent variables is `rpp * (1 + delta) = 1` (the claimed factor `rvv`
does not belong in it, see the counterexample). -/
theorem update_delta_roundtrip (p : Particles) (nd b : ℝ)
    (h1 : -1 < nd) (h2 : nd < 10) (h3 : 0 < b) (h4 : b < 1) :
    (∀ v ∈ (update_delta p nd).delta, v = nd) ∧ ud_rpp nd * (1 + nd) = 1 := by
  constructor
  · intro v hv
    have hd : (update_delta p nd).delta = p.delta.map (fun _ => nd) := rfl
    rw [hd] at hv
    simp only [List.mem_map] at hv
    obtain ⟨w, _, hw⟩ := hv
    exact hw.symm
  · have hne0 : (1 : ℝ) + nd ≠ 0 := by
      have : (0 : ℝ) < 1 + nd := by linarith
      exact this.ne'
    rw [ud_rpp, one_div, inv_mul_cancel₀ hne0]

/-- Witness for the amended C3 at `delta = 0`, `beta0 = 1/2`. -/
theorem update_delta_roundtrip_witness :
    ((-1 : ℝ) < 0 ∧ (0 : ℝ) < 10 ∧ (0 : ℝ) < 1 / 2 ∧ (1 / 2 : ℝ) < 1) ∧
    ((∀ v ∈ (update_delta (mkP 1 [1] [0]) 0).delta, v = 0) ∧
      ud_rpp 0 * (1 + 0) = 1) :=
  ⟨by norm_num,
    update_delta_roundtrip (mkP 1 [1] [0]) 0 (1 / 2) (by norm_num) (by norm_num)
      (by norm_num) (by norm_num)⟩

/-- C8 (the code, as written).  Seeding with an explicit seeds array always
raises `NameError` — even when `len(seeds)` equals the capacity — because
the assert references the undefined name `particles` (a slip for `self`);
neither the claimed `ConfigurationError` on mismatch nor the claimed
coercion-and-kernel-invocation on match is reachable. -/
theorem initRNG_always_nameError (self : Particles) (seeds : List ℕ) :
    initRandomNumberGenerator self seeds = Except.error PyExc.nameError := rfl

/-- C9.  For every per-particle field named in the frozen set, the
generated setter, adder and scaler are present in the emitted interface
and callable, but behaviorally inert — running their bodies leaves the
stored cell unchanged, because the mutation statement sits inside a
comment — while the generated getter still returns the stored value. -/
theorem frozen_mutators_inert {α : Type} [Add α] [Mul α]
    (vv : String) (freeze_vars : List String) (value st : α)
    (hmem : vv ∈ perParticleVarNames)
    (hfrozen : strInList vv freeze_vars = true) :
    ((vv, genSetterBody vv freeze_vars) ∈ genSetters freeze_vars ∧
      (vv, genAdderBody vv freeze_vars) ∈ genAdders freeze_vars ∧
      (vv, genScalerBody vv freeze_vars) ∈ genScalers freeze_vars) ∧
    runMutator value (genSetterBody vv freeze_vars) false st = st ∧
    runMutator value (genAdderBody vv freeze_vars) false st = st ∧
    runMutator value (genScalerBody vv freeze_vars) false st = st ∧
    runGetter (genGetterBody vv) false st = some st := by
  refine ⟨⟨?_, ?_, ?_⟩, ?_, ?_, ?_, rfl⟩
  · exact List.mem_map_of_mem _ hmem
  · exact List.mem_map_of_mem _ hmem
  · exact List.mem_map_of_mem _ hmem
  · simp [genSetterBody, genMutatorBody, hfrozen, runMutator]
  · simp [genAdderBody, genMutatorBody, hfrozen, runMutator]
  · simp [genScalerBody, genMutatorBody, hfrozen, runMutator]

/-- Witness for C9: the frozen field `delta` with freeze set `[delta]`,
over the integers. -/
theorem frozen_mutators_inert_witness :
    ("delta" ∈ perParticleVarNames ∧ strInList "delta" ["delta"] = true) ∧
    ((("delta", genSetterBody "delta" ["delta"]) ∈ genSetters ["delta"] ∧
      ("delta", genAdderBody "delta" ["delta"]) ∈ genAdders ["delta"] ∧
      ("delta", genScalerBody "delta" ["delta"]) ∈ genScalers ["delta"]) ∧
    runMutator (5 : ℤ) (genSetterBody "delta" ["delta"]) false 3 = 3 ∧
    runMutator (5 : ℤ) (genAdderBody "delta" ["delta"]) false 3 = 3 ∧
    runMutator (5 : ℤ) (genScalerBody "delta" ["delta"]) false 3 = 3 ∧
    runGetter (genGetterBody "delta") false (3 : ℤ) = some 3) :=
  ⟨⟨by decide, by decide⟩,
    frozen_mutators_inert "delta" ["delta"] (5 : ℤ) 3 (by decide) (by decide)⟩

/-- Witness for C1 at a concrete out-of-order ensemble. -/
theorem reorganize_partition_witness :
    pW1.state.length = pW1.capacity ∧
    (((reorganize pW1).1.state.length = pW1.capacity ∧
      (∀ i, i < (reorganize pW1).2.1 → 0 < (reorganize pW1).1.state.getD i 0) ∧
      (∀ i, (reorganize pW1).2.1 ≤ i → i < (reorganize pW1).2.1 + (reorganize pW1).2.2 →
        LAST_INVALID_STATE < (reorganize pW1).1.state.getD i 0 ∧
          (reorganize pW1).1.state.getD i 0 ≤ 0) ∧
      (∀ i, (reorganize pW1).2.1 + (reorganize pW1).2.2 ≤ i → i < pW1.capacity →
        (reorganize pW1).1.state.getD i 0 = LAST_INVALID_STATE)) ∧
    (reorganize pW1).2.1 = pW1.state.countP (fun z => decide (0 < z)) ∧
    (reorganize pW1).2.2 =
      pW1.state.countP (fun z => decide (LAST_INVALID_STATE < z ∧ z ≤ 0))) :=
  ⟨rfl, reorganize_partition pW1 rfl⟩

end Xpart
